import Mathlib

/-!
# Verification of the momentum-detection engine (`polygon_websocket.py`)

A shallow embedding of the detection engine of this repository:
the quality scorer `compute_quality_score`, the quote-book spread
computation `get_spread_ratio`, the bar aggregator `update_aggregates`,
and the staged detector `check_spike`, together with proofs about them.

Modelling conventions:
* Python floats are modelled by `ℚ` (the engine only performs field
  operations and comparisons on them).
* Timestamps are modelled at minute granularity as `ℤ` (minutes of
  Eastern local time since a fixed local midnight); `check_spike` only
  reads the wall-clock hour/minute of the bar timestamp and minute
  differences, and all timestamps it compares are minute-truncated.
* Python dictionaries become association lists; `None` becomes `Option`.
* The Telegram sink is modelled as the list of alerts a call emits;
  `DISABLE_NOTIFICATIONS` and `STAGE2_DEBUG` are taken as false (the
  debug branch only prints and mutates a diagnostic counter).
-/

namespace Stock

/-- Python `int(x)` on a float: truncation toward zero. -/
def pyInt (q : ℚ) : ℤ := if 0 ≤ q then ⌊q⌋ else ⌈q⌉

/-- Python 3 `round` to an integer: round half to even (banker's rounding). -/
def roundHalfEven (q : ℚ) : ℤ :=
  if q - ⌊q⌋ < 1/2 then ⌊q⌋
  else if 1/2 < q - ⌊q⌋ then ⌊q⌋ + 1
  else if ⌊q⌋ % 2 = 0 then ⌊q⌋ else ⌊q⌋ + 1

/-- Python `round(x, 1)`: round to one decimal digit, half to even. -/
def pyRound1 (q : ℚ) : ℚ := (roundHalfEven (10 * q) : ℚ) / 10

/-- The final step of the scorer: clamp to `[0, 100]`, round to one
decimal digit. -/
def clampRound (s : ℚ) : ℚ := pyRound1 (max 0 (min s 100))

/-- The quality scorer `compute_quality_score` of `polygon_websocket.py`:
weighted sum of relative volume (28), percent change (18), volume vs
threshold (14), trade density (12), spread tightness (10) and
expansion/follow-through (18), then the parabolic and retail-churn
penalties, clamped to `[0, 100]` and rounded to one decimal digit. -/
def compute_quality_score (rel_vol pct_change volume vol_thresh trade_count min_trades : ℚ)
    (spread_ratio : Option ℚ) (spread_limit price_expansion_pct : ℚ)
    (acceleration volume_sustained : Bool) : ℚ :=
  let s1 : ℚ := min rel_vol 8 / 8 * 28
  let s2 : ℚ := s1 + min |pct_change| 14 / 14 * 18
  let s3 : ℚ := s2 + (if 0 < vol_thresh then min (volume / vol_thresh) 2 / 2 * 14 else 0)
  let s4 : ℚ := s3 + min (trade_count / max min_trades 1) 3 / 3 * 12
  let s5 : ℚ := s4 +
    (match spread_ratio with
     | some sr => if 0 < spread_limit then max 0 ((spread_limit - sr) / spread_limit) * 10 else 5
     | none => 5)
  let follow : ℚ :=
    (if 3/5 ≤ price_expansion_pct then min (price_expansion_pct / 6) (3/5) else 0) +
    (if acceleration then 3/10 else 0) + (if volume_sustained then 3/10 else 0)
  let s6 : ℚ := s5 + min follow 1 * 18
  let s7 : ℚ := s6 -
    (if 11 ≤ pct_change ∧ volume_sustained = false then min (pct_change - 11) 6 / 6 * 6 else 0)
  let avg_trade_size : ℚ := if 0 < trade_count then volume / trade_count else 0
  let s8 : ℚ := s7 - (if avg_trade_size < 120 then 4 else if avg_trade_size < 200 then 2 else 0)
  clampRound s8

/-- The scorer with the parabolic-penalty subtraction removed; used only
to express when the penalty is actually applied. -/
def compute_quality_score_noParabolic
    (rel_vol pct_change volume vol_thresh trade_count min_trades : ℚ)
    (spread_ratio : Option ℚ) (spread_limit price_expansion_pct : ℚ)
    (acceleration volume_sustained : Bool) : ℚ :=
  let s1 : ℚ := min rel_vol 8 / 8 * 28
  let s2 : ℚ := s1 + min |pct_change| 14 / 14 * 18
  let s3 : ℚ := s2 + (if 0 < vol_thresh then min (volume / vol_thresh) 2 / 2 * 14 else 0)
  let s4 : ℚ := s3 + min (trade_count / max min_trades 1) 3 / 3 * 12
  let s5 : ℚ := s4 +
    (match spread_ratio with
     | some sr => if 0 < spread_limit then max 0 ((spread_limit - sr) / spread_limit) * 10 else 5
     | none => 5)
  let follow : ℚ :=
    (if 3/5 ≤ price_expansion_pct then min (price_expansion_pct / 6) (3/5) else 0) +
    (if acceleration then 3/10 else 0) + (if volume_sustained then 3/10 else 0)
  let s6 : ℚ := s5 + min follow 1 * 18
  let avg_trade_size : ℚ := if 0 < trade_count then volume / trade_count else 0
  let s8 : ℚ := s6 - (if avg_trade_size < 120 then 4 else if avg_trade_size < 200 then 2 else 0)
  clampRound s8

/-- A quote: latest bid/ask for a symbol (`latest_quotes` values). -/
structure Quote where
  bid : ℚ
  ask : ℚ
deriving DecidableEq, Repr

/-- The `price` local of the fallback branch of `get_spread_ratio`: the
passed fallback price when positive, else the current bar close. -/
def effectivePrice (fallback_price : Option ℚ) (aggClose : Option ℚ) : Option ℚ :=
  match fallback_price with
  | some p => if 0 < p then some p else aggClose
  | none => aggClose

/-- The price-tier fallback branch of `get_spread_ratio`: `0.001` for a
price `≥ 5`, `0.005` for `≥ 1`, `0.01` for a smaller positive price. -/
def get_spread_fallback (fallback_price : Option ℚ) (aggClose : Option ℚ) : Option ℚ :=
  match effectivePrice fallback_price aggClose with
  | some p =>
    if 0 < p then
      if 5 ≤ p then some (1/1000) else if 1 ≤ p then some (5/1000) else some (1/100)
    else none
  | none => none

/-- `get_spread_ratio`: spread as a fraction of the mid price when a usable
quote exists, otherwise a price-tier estimate from the fallback price or,
failing that, from the close of the current wall-clock minute bar
(`aggClose`); `none` when no positive price is available at all. -/
def get_spread_ratio (quote : Option Quote) (fallback_price : Option ℚ)
    (aggClose : Option ℚ) : Option ℚ :=
  match quote with
  | some q =>
    if q.bid ≠ 0 ∧ q.ask ≠ 0 ∧ 0 < q.bid ∧ 0 < q.ask ∧ 0 < (q.bid + q.ask) / 2 then
      some ((q.ask - q.bid) / ((q.bid + q.ask) / 2))
    else get_spread_fallback fallback_price aggClose
  | none => get_spread_fallback fallback_price aggClose

/-- A per-(minute, symbol) aggregate record, as initialised by the
`minute_aggregates` defaultdict: `open`/`high`/`low` start as `None`
(the field `open` is renamed `open_` since `open` is a Lean keyword). -/
structure Agg where
  open_ : Option ℚ
  close : ℚ
  high : Option ℚ
  low : Option ℚ
  volume : ℚ
  value : ℚ
  count : ℕ
deriving DecidableEq, Repr

/-- The fresh aggregate a defaultdict lookup creates. -/
def Agg.init : Agg := ⟨none, 0, none, none, 0, 0, 0⟩

/-- Association-list lookup (Python `dict.get`). -/
def lookupA {α β : Type} [DecidableEq α] : List (α × β) → α → Option β
  | [], _ => none
  | (k, v) :: t, a => if k = a then some v else lookupA t a

/-- Association-list insertion/replacement (Python `dict.__setitem__`). -/
def insertA {α β : Type} [DecidableEq α] : List (α × β) → α → β → List (α × β)
  | [], a, b => [(a, b)]
  | (k, v) :: t, a, b => if k = a then (a, b) :: t else (k, v) :: insertA t a b

/-- Association-list key removal (Python `dict.pop(key, None)`). -/
def eraseA {α β : Type} [DecidableEq α] (l : List (α × β)) (a : α) : List (α × β) :=
  l.filter (fun e => e.1 ≠ a)

/-- The map of minute aggregates, keyed by (minute timestamp, symbol). -/
abbrev Aggs : Type := List ((ℤ × String) × Agg)

/-- One step of `update_aggregates` on a single aggregate record. -/
def Agg.update (a : Agg) (price size : ℚ) : Agg :=
  { open_ := match a.open_ with | none => some price | some o => some o
    close := price
    high := match a.high with | none => some price | some h => if h < price then some price else some h
    low := match a.low with | none => some price | some l => if price < l then some price else some l
    volume := a.volume + size
    value := a.value + price * size
    count := a.count + 1 }

/-- The VWAP returned by `update_aggregates`: `value/volume` when
`volume > 0`, else the trade price. -/
def Agg.vwapOr (a : Agg) (price : ℚ) : ℚ :=
  if 0 < a.volume then a.value / a.volume else price

/-- The percent change returned by `update_aggregates`:
`(close-open)/open*100` when the open is set and positive, else 0. -/
def Agg.pctChange (a : Agg) : ℚ :=
  match a.open_ with
  | some o => if 0 < o then (a.close - o) / o * 100 else 0
  | none => 0

/-- `update_aggregates(symbol, price, size, timestamp)`: fold the trade
into the bar of its minute, returning the new map together with the
bar's minute, updated record, percent change and VWAP. -/
def update_aggregates (aggs : Aggs) (symbol : String) (price size : ℚ) (minute_ts : ℤ) :
    Aggs × ℤ × Agg × ℚ × ℚ :=
  let a := (lookupA aggs (minute_ts, symbol)).getD Agg.init
  let a' := a.update price size
  (insertA aggs (minute_ts, symbol) a', minute_ts, a', a'.pctChange, a'.vwapOr price)

/-- A trade event (timestamp already truncated to its ET minute). -/
structure Trade where
  symbol : String
  price : ℚ
  size : ℚ
  minute_ts : ℤ
deriving DecidableEq, Repr

/-- Run a sequence of trades through `update_aggregates`. -/
def runTrades (aggs : Aggs) : List Trade → Aggs
  | [] => aggs
  | t :: ts => runTrades (update_aggregates aggs t.symbol t.price t.size t.minute_ts).1 ts

/-- Trading-session label derived from the Eastern wall clock. -/
inductive Session
  | premarket
  | regular
  | postmarket
  | closed
deriving DecidableEq, Repr

/-- Hour of day of an ET minute count (`dt.hour`). -/
def hourOf (t : ℤ) : ℤ := t % 1440 / 60

/-- Minute of hour of an ET minute count (`dt.minute`). -/
def minuteOf (t : ℤ) : ℤ := t % 60

/-- The session classifier of `check_spike` (its `hour`/`minute` if-chain). -/
def sessionOf (t : ℤ) : Session :=
  if (4 ≤ hourOf t ∧ hourOf t < 9) ∨ (hourOf t = 9 ∧ minuteOf t < 30) then .premarket
  else if (hourOf t = 9 ∧ 30 ≤ minuteOf t) ∨ (9 < hourOf t ∧ hourOf t < 16) then .regular
  else if 16 ≤ hourOf t ∧ hourOf t < 20 then .postmarket
  else .closed

/-- The per-session balanced-quality thresholds of `check_spike`. -/
structure Params where
  volThresh : ℚ
  spreadLimit : ℚ
  pctEarly : ℚ
  pctConfirm : ℚ
  relVolS1 : ℚ
  relVolS2 : ℚ
  watchRelVol : ℚ
  watchPct : ℚ
deriving DecidableEq, Repr

/-- The threshold table of `check_spike` (the CLOSED row is never used:
the function returns before reading it). -/
def paramsFor : Session → Params
  | .premarket => ⟨30000, 3/100, 19/5, 39/5, 12/5, 41/10, 9/5, 5/2⟩
  | .regular => ⟨90000, 1/50, 9/2, 39/5, 5/2, 43/10, 2, 3⟩
  | .postmarket => ⟨24000, 19/500, 19/5, 7, 23/10, 4, 17/10, 5/2⟩
  | .closed => ⟨0, 0, 0, 0, 0, 0, 0, 0⟩

/-- A `rolling_volume_3min` window `[v0, v1, v2]`, `v2` most recent. -/
structure RollVol where
  v0 : ℚ
  v1 : ℚ
  v2 : ℚ
deriving DecidableEq, Repr

/-- A momentum flag (`momentum_flags` value); the `stage2_fail_reasons`
diagnostic counter is omitted (only read under `STAGE2_DEBUG`). -/
structure Flag where
  flag : String
  time : ℤ
  session : Session
  intradayHigh : Option ℚ
  setupPrice : ℚ
  setupVolume : ℚ
  flagMinute : ℤ
  qualityScore : ℚ
deriving DecidableEq, Repr

/-- A `watch_alerts` list entry. -/
structure WatchEntry where
  symbol : String
  timestamp : ℤ
  session : Session
  price : ℚ
  pct : ℚ
  rel_vol : ℚ
  volume : ℚ
  trades : ℕ
  quality : ℚ
deriving DecidableEq, Repr

/-- A `breakout_quality` record for a confirmed Stage-2 breakout. -/
structure BreakoutRecord where
  quality : ℚ
  timestamp : ℤ
  expansionPct : ℚ
  cumulativeVolume : ℚ
deriving DecidableEq, Repr

/-- The mutable per-symbol engine state shared by the detector. -/
structure EngineState where
  aggs : Aggs
  quotes : List (String × Quote)
  flags : List (String × Flag)
  watchAlerts : List WatchEntry
  breakoutQuality : List (String × BreakoutRecord)
  rolling : List (String × RollVol)
  tracker : List (String × ℤ)
deriving DecidableEq, Repr

/-- An alert delivered to the notification sink by one `check_spike` call. -/
inductive Alert
  | watch (symbol : String) (session : Session) (price pct rel_vol volume : ℚ)
      (trades : ℕ) (quality : ℚ)
  | breakout (symbol : String) (session : Session) (altPath : Bool)
      (quality expansionPct cumulativeVolume : ℚ)
  | fastBreak (symbol : String) (session : Session) (quality pct rel_vol volume : ℚ)
deriving DecidableEq, Repr

/-- `can_send_alert`: no prior alert, or at least 5 minutes since it. -/
def can_send_alert (tracker : List (String × ℤ)) (symbol : String) (minute_ts : ℤ) : Bool :=
  match lookupA tracker symbol with
  | none => true
  | some last => decide (5 ≤ minute_ts - last)

/-- The declining-volume test of `check_spike`: current volume below 40 %
of `vols[-2]` while both `vols[-1]` and `vols[-2]` are positive. -/
def volDecliningB (vols : RollVol) (vol_now : ℚ) : Bool :=
  decide (0 < vols.v2 ∧ 0 < vols.v1 ∧ vol_now < vols.v1 * (2/5))

/-- Spread gate against a multiple of the session limit (unknown passes). -/
def spreadOKmul (spread : Option ℚ) (limit mult : ℚ) : Bool :=
  match spread with
  | none => true
  | some s => decide (s < limit * mult)

/-- The Stage-0 Watch condition of `check_spike`. -/
def watchPassB (p : Params) (rel_vol pct : ℚ) (trade_count : ℕ) (spread : Option ℚ)
    (vols : RollVol) (vol_now : ℚ) : Bool :=
  decide (p.watchRelVol ≤ rel_vol) && decide (p.watchPct ≤ pct) && decide (2 ≤ trade_count) &&
  spreadOKmul spread p.spreadLimit (7/5) && !volDecliningB vols vol_now

/-- The Stage-1 Setup condition of `check_spike` (`min_trade_count = 3`). -/
def stage1PassB (p : Params) (rel_vol pct : ℚ) (trade_count : ℕ) (spread : Option ℚ)
    (vols : RollVol) (vol_now : ℚ) : Bool :=
  decide (p.relVolS1 ≤ rel_vol) && decide (p.pctEarly ≤ pct) &&
  spreadOKmul spread p.spreadLimit 1 && decide (3 ≤ trade_count) && !volDecliningB vols vol_now

/-- Cumulative volume across the symbol's bars from the flag minute to the
current minute inclusive (`_cumulative_volume_since_flag`; a bar
contributes only when its volume is truthy, i.e. nonzero). -/
def cumulative_volume_since_flag (aggs : Aggs) (symbol : String) (flagMin curMin : ℤ) : ℚ :=
  aggs.foldl
    (fun acc e =>
      if flagMin ≤ e.1.1 ∧ e.1.1 ≤ curMin ∧ e.1.2 = symbol ∧ e.2.volume ≠ 0 then
        acc + e.2.volume
      else acc) 0

/-- Cumulative trade count across the symbol's bars since the flag
(the Stage-2 trade-density accumulator, zero counts skipped as falsy). -/
def total_trades_since_flag (aggs : Aggs) (symbol : String) (flagMin curMin : ℤ) : ℕ :=
  aggs.foldl
    (fun acc e =>
      if flagMin ≤ e.1.1 ∧ e.1.1 ≤ curMin ∧ e.1.2 = symbol ∧ e.2.count ≠ 0 then
        acc + e.2.count
      else acc) 0

/-- Whole minutes elapsed since the flag was set (both timestamps are
minute-truncated, so the Python fractional value is an integer). -/
def minsSinceFlag (dt : ℤ) (f : Flag) : ℚ := ((dt - f.time : ℤ) : ℚ)

/-- Cumulative expansion from the setup price, in percent. -/
def expansionPctOf (price : ℚ) (f : Flag) : ℚ :=
  if 0 < f.setupPrice then (price - f.setupPrice) / f.setupPrice * 100 else 0

/-- The Stage-2 required cumulative expansion for the current age. -/
def requiredCumExpansion (p : Params) (mins : ℚ) : ℚ :=
  if mins < 11/10 then 3/5 else max (3/5) (p.pctConfirm - p.pctEarly + 1)

/-- The Stage-2 expansion gate (first minute allows an explosive bar). -/
def expansionGateB (p : Params) (mins expPct curPct : ℚ) : Bool :=
  if mins < 11/10 then decide (3/5 ≤ expPct ∨ p.pctConfirm ≤ curPct)
  else decide (max (3/5) (p.pctConfirm - p.pctEarly + 1) ≤ expPct)

/-- Stage-2 expiry: over 4 minutes old and below half the required
expansion. -/
def stage2ExpiredB (p : Params) (mins expPct : ℚ) : Bool :=
  decide (4 < mins ∧ expPct < requiredCumExpansion p mins * (1/2))

/-- The Stage-2 volume-sustained test. -/
def volumeSustainedB (setupVolume cumVol vol_now volThresh : ℚ) : Bool :=
  decide ((0 < setupVolume ∧
      (setupVolume * (5/4) ≤ cumVol ∨ setupVolume * (11/20) ≤ vol_now)) ∨
    (0 < volThresh ∧ volThresh * (1/2) ≤ cumVol))

/-- The Stage-2 acceleration test (relative volume or cumulative
participation). -/
def accelerationB (p : Params) (rel_vol cumVol : ℚ) : Bool :=
  let cumulative_rel_vol : ℚ := if 0 < p.volThresh then cumVol / max p.volThresh 1 else 0
  decide (p.relVolS2 - 2/5 ≤ rel_vol ∨ 11/20 ≤ cumulative_rel_vol)

/-- The Stage-2 spread gate (unknown passes). -/
def spreadGateB (spread : Option ℚ) (limit : ℚ) : Bool :=
  match spread with
  | none => true
  | some s => decide (s < limit)

/-- The Stage-2 trade gate: cumulative trades `≥ max(5, int(3*1.6))`. -/
def tradeGateB (total : ℕ) : Bool :=
  decide (max 5 (pyInt ((3 : ℚ) * (8/5))) ≤ (total : ℤ))

/-- The primary Stage-2 gate conjunction. -/
def stage2PassB (p : Params) (aggs : Aggs) (symbol : String) (f : Flag)
    (minute_ts : ℤ) (price curPct vol_now rel_vol : ℚ) (spread : Option ℚ) : Bool :=
  expansionGateB p (minsSinceFlag minute_ts f) (expansionPctOf price f) curPct
  && volumeSustainedB f.setupVolume
      (cumulative_volume_since_flag aggs symbol f.flagMinute minute_ts) vol_now p.volThresh
  && accelerationB p rel_vol (cumulative_volume_since_flag aggs symbol f.flagMinute minute_ts)
  && spreadGateB spread p.spreadLimit
  && tradeGateB (total_trades_since_flag aggs symbol f.flagMinute minute_ts)

/-- The alternative (consolidation) Stage-2 confirmation path. -/
def altStage2PassB (p : Params) (aggs : Aggs) (symbol : String) (f : Flag)
    (minute_ts : ℤ) (price curPct vol_now rel_vol : ℚ) (spread : Option ℚ)
    (vols : RollVol) : Bool :=
  !stage2PassB p aggs symbol f minute_ts price curPct vol_now rel_vol spread
  && decide (2 ≤ minsSinceFlag minute_ts f ∧ minsSinceFlag minute_ts f ≤ 3)
  && decide (f.setupPrice * (197/200) ≤ price)
  && decide (2/5 ≤ expansionPctOf price f)
  && decide (p.pctEarly + 1 ≤ expansionPctOf price f)
  && decide (f.setupVolume * (1/2) ≤ vol_now ∧
       (vols.v1 = 0 ∨ f.setupVolume * (1/2) ≤ vols.v1))
  && decide (p.relVolS1 + 3/10 ≤ rel_vol)
  && spreadGateB spread p.spreadLimit

/-- The quality score recomputed on Stage-2 confirmation (expansion
context, `acceleration=True`, sustained as computed). -/
def confirmedQualityOf (p : Params) (aggs : Aggs) (symbol : String) (f : Flag)
    (minute_ts : ℤ) (price curPct vol_now rel_vol : ℚ) (trade_count : ℕ)
    (spread : Option ℚ) : ℚ :=
  compute_quality_score rel_vol curPct vol_now p.volThresh (trade_count : ℚ) 3 spread
    p.spreadLimit (expansionPctOf price f) true
    (volumeSustainedB f.setupVolume
      (cumulative_volume_since_flag aggs symbol f.flagMinute minute_ts) vol_now p.volThresh)

/-- The Stage-3 Fast-Break trigger condition. -/
def fastBreakCondB (p : Params) (vol_prev5 vol_now curPct : ℚ) (spread : Option ℚ) : Bool :=
  decide (0 < vol_prev5) && decide (6 * vol_prev5 ≤ vol_now) && decide (9 ≤ curPct) &&
  spreadOKmul spread p.spreadLimit (8/5)

/-- The preliminary quality score used by both the Watch and Stage-1
paths: no expansion, no acceleration, volume not yet sustained,
`min_trades = 3`. -/
def baseQualityOf (p : Params) (rel_vol curPct vol_now : ℚ) (trade_count : ℕ)
    (spread : Option ℚ) : ℚ :=
  compute_quality_score rel_vol curPct vol_now p.volThresh (trade_count : ℚ) 3 spread
    p.spreadLimit 0 false false

/-- Stage 0 of `check_spike`: on a Watch pass, append the candidate to the
in-memory watch list and, when its quality is at least 45 and the
cooldown allows, mark the tracker and send the Watch alert. -/
def watchPhase (st : EngineState) (p : Params) (session : Session) (symbol : String)
    (dt : ℤ) (price curPct rel_vol vol_now : ℚ) (trade_count : ℕ) (spread : Option ℚ)
    (vols : RollVol) : EngineState × List Alert :=
  if watchPassB p rel_vol curPct trade_count spread vols vol_now then
    let q := baseQualityOf p rel_vol curPct vol_now trade_count spread
    let st1 := { st with watchAlerts := st.watchAlerts ++
      [⟨symbol, dt, session, price, curPct, rel_vol, vol_now, trade_count, q⟩] }
    if 45 ≤ q ∧ can_send_alert st1.tracker symbol dt = true then
      ({ st1 with tracker := insertA st1.tracker symbol dt },
       [.watch symbol session price curPct rel_vol vol_now trade_count q])
    else (st1, [])
  else (st, [])

/-- Stage 1 of `check_spike`: when the setup condition passes on an
unflagged symbol, compute the preliminary quality; below 50 the call
returns early (`none`), otherwise the flag is created. -/
def stage1Phase (st : EngineState) (p : Params) (session : Session) (symbol : String)
    (dt : ℤ) (price curPct rel_vol vol_now : ℚ) (trade_count : ℕ) (spread : Option ℚ)
    (vols : RollVol) (high : Option ℚ) : Option EngineState :=
  if stage1PassB p rel_vol curPct trade_count spread vols vol_now &&
      (lookupA st.flags symbol).isNone then
    let q := baseQualityOf p rel_vol curPct vol_now trade_count spread
    if q < 50 then none
    else
      let f : Flag := ⟨"SETUP_" ++ symbol, dt, session, high, price, vol_now, dt, q⟩
      some { st with flags := insertA st.flags symbol f }
  else some st

/-- Result of the Stage-2 block: updated state, alerts emitted, and
whether control continues to Stage 3 (`false` on an early `return`). -/
structure Stage2Out where
  st : EngineState
  alerts : List Alert
  cont : Bool
deriving DecidableEq, Repr

/-- Stage 2 of `check_spike`: expiry drops the flag and returns early; a
primary or alternative pass recomputes quality, applies the 60/58 gate
(failing it returns early), then emits the confirmation, records the
confirmed quality and removes the flag. The alert tracker is not
touched on this path. -/
def stage2Phase (st : EngineState) (p : Params) (session : Session) (symbol : String)
    (minute_ts : ℤ) (price curPct vol_now rel_vol : ℚ) (trade_count : ℕ)
    (spread : Option ℚ) (vols : RollVol) : Stage2Out :=
  match lookupA st.flags symbol with
  | none => ⟨st, [], true⟩
  | some f =>
    if f.flag = "SETUP_" ++ symbol then
      if stage2ExpiredB p (minsSinceFlag minute_ts f) (expansionPctOf price f) then
        ⟨{ st with flags := eraseA st.flags symbol }, [], false⟩
      else
        let s2 := stage2PassB p st.aggs symbol f minute_ts price curPct vol_now rel_vol spread
        let alt := altStage2PassB p st.aggs symbol f minute_ts price curPct vol_now rel_vol
          spread vols
        if s2 || alt then
          let cq := confirmedQualityOf p st.aggs symbol f minute_ts price curPct vol_now
            rel_vol trade_count spread
          if cq < (if s2 then 60 else 58) then ⟨st, [], false⟩
          else
            ⟨{ st with
                breakoutQuality := insertA st.breakoutQuality symbol
                  ⟨cq, minute_ts, expansionPctOf price f,
                    cumulative_volume_since_flag st.aggs symbol f.flagMinute minute_ts⟩,
                flags := eraseA st.flags symbol },
              [.breakout symbol session alt cq (expansionPctOf price f)
                (cumulative_volume_since_flag st.aggs symbol f.flagMinute minute_ts)], true⟩
        else ⟨st, [], true⟩
    else ⟨st, [], true⟩

/-- Stage 3 of `check_spike`: the Fast-Break alert. It consults no
cooldown and performs no state change (in particular `mark_alerted`
is not called). -/
def stage3Phase (p : Params) (session : Session) (symbol : String)
    (curPct rel_vol vol_now : ℚ) (trade_count : ℕ) (spread : Option ℚ)
    (vol_prev5 : ℚ) (vols : RollVol) : List Alert :=
  if fastBreakCondB p vol_prev5 vol_now curPct spread then
    [.fastBreak symbol session
      (compute_quality_score rel_vol curPct vol_now p.volThresh (trade_count : ℚ) 3 spread
        p.spreadLimit curPct true (!volDecliningB vols vol_now))
      curPct rel_vol vol_now]
  else []

/-- The spread ratio `check_spike` computes for the symbol: quotes first,
then the close-price fallback, then the current wall-clock minute bar. -/
def spreadOf (st : EngineState) (symbol : String) (close_price : ℚ) (now : ℤ) : Option ℚ :=
  get_spread_ratio (lookupA st.quotes symbol) (some close_price)
    ((lookupA st.aggs (now, symbol)).map Agg.close)

/-- The symbol's rolling 3-minute window (`[0,0,0]` when absent). -/
def volsOf (st : EngineState) (symbol : String) : RollVol :=
  (lookupA st.rolling symbol).getD ⟨0, 0, 0⟩

/-- The rolling-window average volume (`sum(vols)/max(len(vols),1)`). -/
def volPrev5Of (v : RollVol) : ℚ := (v.v0 + v.v1 + v.v2) / 3

/-- The relative volume `vol_now / max(vol_prev5, 1)`. -/
def relVolOf (st : EngineState) (symbol : String) (vol_now : ℚ) : ℚ :=
  vol_now / max (volPrev5Of (volsOf st symbol)) 1

/-- The current bar's high as read by `check_spike` (defaults to the
close price when the bar record is absent). -/
def highOf (aggs : Aggs) (minute_ts : ℤ) (symbol : String) (close_price : ℚ) : Option ℚ :=
  match lookupA aggs (minute_ts, symbol) with
  | some a => a.high
  | none => some close_price

/-- The staged pipeline of `check_spike` for a given parameter set:
Watch, then Stage 1 (which may return early), then Stage 2 (which may
return early), then Stage 3. -/
def checkSpikeStages (st : EngineState) (p : Params) (session : Session) (symbol : String)
    (current_pct current_vol : ℚ) (minute_ts : ℤ) (close_price : ℚ)
    (trade_count : ℕ) (now : ℤ) : EngineState × List Alert :=
  let spread := spreadOf st symbol close_price now
  let vols := volsOf st symbol
  let rel_vol := relVolOf st symbol current_vol
  let high := highOf st.aggs minute_ts symbol close_price
  let w := watchPhase st p session symbol minute_ts close_price current_pct rel_vol
    current_vol trade_count spread vols
  match stage1Phase w.1 p session symbol minute_ts close_price current_pct rel_vol
      current_vol trade_count spread vols high with
  | none => w
  | some st2 =>
    let r := stage2Phase st2 p session symbol minute_ts close_price current_pct current_vol
      rel_vol trade_count spread vols
    if r.cont then
      (r.st, w.2 ++ r.alerts ++ stage3Phase p session symbol current_pct rel_vol current_vol
        trade_count spread (volPrev5Of vols) vols)
    else (r.st, w.2 ++ r.alerts)

/-- The body of `check_spike` for a non-CLOSED session, with the shipped
per-session thresholds. -/
def checkSpikeOpen (st : EngineState) (session : Session) (symbol : String)
    (current_pct current_vol : ℚ) (minute_ts : ℤ) (close_price : ℚ)
    (trade_count : ℕ) (now : ℤ) : EngineState × List Alert :=
  checkSpikeStages st (paramsFor session) session symbol current_pct current_vol minute_ts
    close_price trade_count now

/-- `check_spike`: session classification, CLOSED short-circuit, then the
staged pipeline. The `open_price` and `vwap` arguments of the Python
function are not modelled: `open_price` is only used as the default of a
`.get` whose key is always present, and `vwap` only appears in the
formatted alert text (stop-loss/target numbers), not in any decision. -/
def check_spike (st : EngineState) (symbol : String) (current_pct current_vol : ℚ)
    (minute_ts : ℤ) (close_price : ℚ) (trade_count : ℕ) (now : ℤ) :
    EngineState × List Alert :=
  if sessionOf minute_ts = Session.closed then (st, [])
  else checkSpikeOpen st (sessionOf minute_ts) symbol current_pct current_vol minute_ts
    close_price trade_count now

/-- Modelled from the spec: the historical-stats draft of `check_spike`
is missing from `src/` (only its tests and diagnostic callers reference
its `BASE_VOL_THRESH` / `get_average_volume` helpers); §4.5.1 gives the
per-session multiplier applied to `avg_volume_20d`. -/
def sessionVolMultiplier : Session → ℚ
  | .premarket => 3/200
  | .regular => 1/10
  | .postmarket => 1/50
  | .closed => 0

/-- Modelled from the spec: the effective volume threshold
`max(vol_base, avg_volume_20d * m)`. -/
def effectiveVolThreshold (base avg20 m : ℚ) : ℚ := max base (avg20 * m)

/-- Modelled from the spec: the per-symbol liquidity score
`min(1, avg_volume_20d / 1_000_000)`. -/
def liquidityScore (avg20 : ℚ) : ℚ := min 1 (avg20 / 1000000)

/-- Modelled from the spec: the enhanced detector consuming
`HistoricalStats`. A symbol whose liquidity score is below 0.10 is
silently skipped (no alerts, no state change); otherwise the staged
pipeline runs with the dynamically scaled volume threshold; without
stats the base thresholds are used. (The `avg_range_20d` scaling of
`pct_early` is outside this model.) -/
def check_spike_hist (st : EngineState) (symbol : String) (current_pct current_vol : ℚ)
    (minute_ts : ℤ) (close_price : ℚ) (trade_count : ℕ) (now : ℤ)
    (avg_volume_20d : Option ℚ) : EngineState × List Alert :=
  if sessionOf minute_ts = Session.closed then (st, [])
  else
    match avg_volume_20d with
    | none =>
      checkSpikeOpen st (sessionOf minute_ts) symbol current_pct current_vol minute_ts
        close_price trade_count now
    | some avg20 =>
      if liquidityScore avg20 < 1/10 then (st, [])
      else
        let base := paramsFor (sessionOf minute_ts)
        let vt := effectiveVolThreshold base.volThresh avg20
          (sessionVolMultiplier (sessionOf minute_ts))
        checkSpikeStages st { base with volThresh := vt } (sessionOf minute_ts) symbol
          current_pct current_vol minute_ts close_price trade_count now

/-- Division that fails on a zero divisor; the `_checked` variants below
re-run the embedded functions with every division routed through it, to
certify that no division by zero is reachable. -/
def safeDiv (a b : ℚ) : Option ℚ := if b = 0 then none else some (a / b)

/-- `compute_quality_score` with every division checked. -/
def compute_quality_score_checked
    (rel_vol pct_change volume vol_thresh trade_count min_trades : ℚ)
    (spread_ratio : Option ℚ) (spread_limit price_expansion_pct : ℚ)
    (acceleration volume_sustained : Bool) : Option ℚ := do
  let t1 ← safeDiv (min rel_vol 8) 8
  let s1 := t1 * 28
  let t2 ← safeDiv (min |pct_change| 14) 14
  let s2 := s1 + t2 * 18
  let s3 ←
    if 0 < vol_thresh then do
      let v ← safeDiv volume vol_thresh
      let v2 ← safeDiv (min v 2) 2
      pure (s2 + v2 * 14)
    else pure s2
  let t4 ← safeDiv trade_count (max min_trades 1)
  let t4b ← safeDiv (min t4 3) 3
  let s4 := s3 + t4b * 12
  let s5 ←
    match spread_ratio with
    | some sr =>
      if 0 < spread_limit then do
        let t ← safeDiv (spread_limit - sr) spread_limit
        pure (s4 + max 0 t * 10)
      else pure (s4 + 5)
    | none => pure (s4 + 5)
  let fexp ←
    if 3/5 ≤ price_expansion_pct then do
      let t ← safeDiv price_expansion_pct 6
      pure (min t (3/5))
    else pure 0
  let follow := fexp + (if acceleration then 3/10 else 0) + (if volume_sustained then 3/10 else 0)
  let s6 := s5 + min follow 1 * 18
  let s7 ←
    if 11 ≤ pct_change ∧ volume_sustained = false then do
      let t ← safeDiv (min (pct_change - 11) 6) 6
      pure (s6 - t * 6)
    else pure s6
  let avg_trade_size ← if 0 < trade_count then safeDiv volume trade_count else pure 0
  let s8 := s7 - (if avg_trade_size < 120 then 4 else if avg_trade_size < 200 then 2 else 0)
  pure (clampRound s8)

/-- `update_aggregates` with its two divisions (VWAP, percent change)
checked. -/
def update_aggregates_checked (aggs : Aggs) (symbol : String) (price size : ℚ)
    (minute_ts : ℤ) : Option (Aggs × ℤ × Agg × ℚ × ℚ) := do
  let a := (lookupA aggs (minute_ts, symbol)).getD Agg.init
  let a' := a.update price size
  let vwap ← if 0 < a'.volume then safeDiv a'.value a'.volume else pure price
  let pct ←
    match a'.open_ with
    | some o =>
      if 0 < o then do
        let t ← safeDiv (a'.close - o) o
        pure (t * 100)
      else pure 0
    | none => pure 0
  pure (insertA aggs (minute_ts, symbol) a', minute_ts, a', pct, vwap)

/-- `get_spread_ratio` with its division by the mid price checked. -/
def get_spread_ratio_checked (quote : Option Quote) (fallback_price : Option ℚ)
    (aggClose : Option ℚ) : Option (Option ℚ) :=
  match quote with
  | some q =>
    if q.bid ≠ 0 ∧ q.ask ≠ 0 ∧ 0 < q.bid ∧ 0 < q.ask ∧ 0 < (q.bid + q.ask) / 2 then do
      let r ← safeDiv (q.ask - q.bid) ((q.bid + q.ask) / 2)
      pure (some r)
    else pure (get_spread_fallback fallback_price aggClose)
  | none => pure (get_spread_fallback fallback_price aggClose)

/-- The relative-volume computation of `check_spike` with both divisions
checked (`sum(vols)/max(len(vols),1)` and `vol_now/max(vol_prev5,1)`). -/
def relVol_checked (vols : RollVol) (vol_now : ℚ) : Option ℚ := do
  let p5 ← safeDiv (vols.v0 + vols.v1 + vols.v2) (max (3 : ℚ) 1)
  safeDiv vol_now (max p5 1)

/-- The well-formedness invariant maintained by the aggregator: OHLC set
together, consistent bounds, and `value` trapped between `low·volume`
and `high·volume` (which yields the VWAP bound). -/
def AggWF (a : Agg) : Prop :=
  match a.open_, a.high, a.low with
  | some o, some h, some l =>
      l ≤ o ∧ o ≤ h ∧ l ≤ a.close ∧ a.close ≤ h ∧ 0 ≤ a.volume ∧
      l * a.volume ≤ a.value ∧ a.value ≤ h * a.volume ∧ 1 ≤ a.count
  | none, none, none => a.close = 0 ∧ a.volume = 0 ∧ a.value = 0 ∧ a.count = 0
  | _, _, _ => False

/-- The claimed bar invariant: a bar having received volume has its OHLC
fields set, `low ≤ open, close ≤ high`, VWAP within `[low, high]`, and
at least one trade counted. -/
def BarInvariant (a : Agg) : Prop :=
  0 < a.volume →
    a.open_.isSome ∧ a.high.isSome ∧ a.low.isSome ∧
    a.low.getD 0 ≤ a.open_.getD 0 ∧ a.open_.getD 0 ≤ a.high.getD 0 ∧
    a.low.getD 0 ≤ a.close ∧ a.close ≤ a.high.getD 0 ∧
    a.low.getD 0 ≤ a.vwapOr a.close ∧ a.vwapOr a.close ≤ a.high.getD 0 ∧
    1 ≤ a.count

/-- Map-level well-formedness: every stored aggregate is well formed. -/
def AggsWF (aggs : Aggs) : Prop := ∀ k a, lookupA aggs k = some a → AggWF a

/-- The spec's wording of the Watch "volume not declining" condition:
current-minute volume at least 40 % of the previous completed minute's
volume whenever that volume is known (`vols[-1]`). The code's
`vol_declining` test instead reads `vols[-2]`, two completed minutes
back, and additionally requires `vols[-1] > 0`; the Watch theorem shows
both readings agree whenever the Watch relative-volume bar is met. -/
def specNotDeclining (vols : RollVol) (vol_now : ℚ) : Prop :=
  0 < vols.v2 → vols.v2 * (2/5) ≤ vol_now

/-- Recogniser for Stage-2 confirmation alerts. -/
def isBreakout : Alert → Bool
  | .breakout .. => true
  | _ => false

/-- Number of Stage-2 confirmation alerts in a batch. -/
def countBreakouts (l : List Alert) : ℕ := (l.filter isBreakout).length

/-- Recogniser for Stage-3 Fast-Break alerts. -/
def isFastBreak : Alert → Bool
  | .fastBreak .. => true
  | _ => false

/-- Number of Fast-Break alerts in a batch. -/
def countFastBreaks (l : List Alert) : ℕ := (l.filter isFastBreak).length

/-- Concrete state for the Watch witness: one rolling window, no quotes. -/
def watchState : EngineState := ⟨[], [], [], [], [], [("W", ⟨10000, 10000, 10000⟩)], []⟩

/-- Concrete engine state with a live Stage-1 flag on "AAA": three bars
since the flag minute, an empty alert tracker, no quotes. -/
def c1State : EngineState :=
  ⟨[((298, "AAA"), ⟨some 10, 21/2, some (53/5), some (99/10), 20000, 0, 100⟩),
    ((299, "AAA"), ⟨some (21/2), 53/5, some (107/10), some (52/5), 15000, 0, 80⟩),
    ((300, "AAA"), ⟨some (53/5), 54/5, some (54/5), some (21/2), 30000, 0, 120⟩)],
   [],
   [("AAA", ⟨"SETUP_AAA", 298, Session.premarket, some (53/5), 10, 20000, 298, 55⟩)],
   [], [],
   [("AAA", ⟨5000, 5000, 5000⟩)],
   []⟩

/-- Engine state for the Fast-Break scenarios: empty aggregates, quotes,
flags and tracker; a unit rolling window on "BBB". -/
def c2State : EngineState := ⟨[], [], [], [], [], [("BBB", ⟨1, 1, 1⟩)], []⟩

/-- The Watch entry appended in the counterexample run (3 trades). -/
def c2Entry : WatchEntry :=
  ⟨"BBB", 300, sessionOf 300, 10, 9, relVolOf c2State "BBB" 6, 6, 3,
    baseQualityOf (paramsFor (sessionOf 300)) (relVolOf c2State "BBB" 6) 9 6 3
      (spreadOf c2State "BBB" 10 300)⟩

/-- The state after the counterexample's Watch phase. -/
def c2State1 : EngineState :=
  { c2State with watchAlerts := c2State.watchAlerts ++ [c2Entry] }

/-- The Watch entry appended in the witness run (2 trades). -/
def c2EntryW : WatchEntry :=
  ⟨"BBB", 300, sessionOf 300, 10, 9, relVolOf c2State "BBB" 6, 6, 2,
    baseQualityOf (paramsFor (sessionOf 300)) (relVolOf c2State "BBB" 6) 9 6 2
      (spreadOf c2State "BBB" 10 300)⟩

/-- The state after the witness's Watch phase. -/
def c2StateW : EngineState :=
  { c2State with watchAlerts := c2State.watchAlerts ++ [c2EntryW] }

/-- Engine state for the liquidity-gate witness: a deep rolling window
on "H", so the same inputs would be a maximal spike for the plain
detector. -/
def histState : EngineState := ⟨[], [], [], [], [], [("H", ⟨10000, 10000, 10000⟩)], []⟩

/-- Concrete trade batch for the bar-invariant witness. -/
def sampleTrades : List Trade := [⟨"A", 10, 5, 60⟩, ⟨"A", 11, 0, 60⟩]

/-- On the interval `[0, 1000]`, half-even rounding stays inside `[0, 1000]`. -/
theorem roundHalfEven_nonneg_le (q : ℚ) (h0 : 0 ≤ q) (h1 : q ≤ 1000) :
    0 ≤ roundHalfEven q ∧ roundHalfEven q ≤ 1000 := by
  unfold roundHalfEven
  have hf : (⌊q⌋ : ℚ) ≤ q := Int.floor_le q
  have hge : 0 ≤ ⌊q⌋ := Int.floor_nonneg.mpr h0
  have hle : ⌊q⌋ ≤ 1000 := by exact_mod_cast hf.trans h1
  refine ⟨by split_ifs <;> omega, ?_⟩
  split_ifs with hlt hgt hev
  · omega
  · have hq : (⌊q⌋ : ℚ) < 1000 := by linarith
    have hz : ⌊q⌋ < 1000 := by exact_mod_cast hq
    omega
  · omega
  · have h12 : (1 : ℚ)/2 ≤ q - ⌊q⌋ := le_of_not_lt hlt
    have hq : (⌊q⌋ : ℚ) < 1000 := by linarith
    have hz : ⌊q⌋ < 1000 := by exact_mod_cast hq
    omega

/-- `clampRound` always lands in `[0, 100]`, on the tenth-integer grid. -/
theorem clampRound_mem (s : ℚ) :
    0 ≤ clampRound s ∧ clampRound s ≤ 100 ∧ ∃ k : ℤ, clampRound s = k / 10 := by
  have h0 : (0 : ℚ) ≤ max 0 (min s 100) := le_max_left _ _
  have h1 : max 0 (min s 100) ≤ 100 := max_le (by norm_num) (min_le_right _ _)
  obtain ⟨ha, hb⟩ := roundHalfEven_nonneg_le (10 * max 0 (min s 100)) (by linarith) (by linarith)
  unfold clampRound pyRound1
  refine ⟨?_, ?_, ⟨roundHalfEven (10 * max 0 (min s 100)), rfl⟩⟩
  · apply div_nonneg _ (by norm_num)
    exact_mod_cast ha
  · rw [div_le_iff₀ (by norm_num : (0 : ℚ) < 10)]
    have hc : (roundHalfEven (10 * max 0 (min s 100)) : ℚ) ≤ 1000 := by exact_mod_cast hb
    linarith

/-- C7: for every input — arbitrary rational metrics, either boolean
flag, spread present or absent — `compute_quality_score` returns a value
in `[0, 100]` that is rounded to one decimal place (an integer number
of tenths). -/
theorem compute_quality_score_in_range
    (rel_vol pct_change volume vol_thresh trade_count min_trades : ℚ)
    (spread_ratio : Option ℚ) (spread_limit price_expansion_pct : ℚ)
    (acceleration volume_sustained : Bool) :
    0 ≤ compute_quality_score rel_vol pct_change volume vol_thresh trade_count min_trades
        spread_ratio spread_limit price_expansion_pct acceleration volume_sustained ∧
    compute_quality_score rel_vol pct_change volume vol_thresh trade_count min_trades
        spread_ratio spread_limit price_expansion_pct acceleration volume_sustained ≤ 100 ∧
    ∃ k : ℤ, compute_quality_score rel_vol pct_change volume vol_thresh trade_count min_trades
        spread_ratio spread_limit price_expansion_pct acceleration volume_sustained = k / 10 := by
  unfold compute_quality_score
  exact clampRound_mem _

/-- C5 counterexample: for the spec's own scenario (pct = 14, rel_vol = 3,
volume = 2×threshold, 30 trades, tight spread, no expansion), toggling
`volume_sustained` moves the score by 8.4 — the parabolic penalty (3)
plus the sustained-volume follow-through weight (5.4) — not by exactly
the parabolic penalty formula. -/
theorem compute_quality_score_parabolic_cex :
    compute_quality_score 3 14 180000 90000 30 3 (some (1/1000)) (1/50) 0 false true
      - compute_quality_score 3 14 180000 90000 30 3 (some (1/1000)) (1/50) 0 false false
      ≠ min ((14 : ℚ) - 11) 6 / 6 * 6 := by
  norm_num [compute_quality_score, clampRound, pyRound1, roundHalfEven]

/-- C5 (amended): the parabolic penalty is applied exactly when
`pct_change ≥ 11` and `volume_sustained` is false (otherwise the scorer
agrees with its penalty-free variant); and on the spec's scenario the
`volume_sustained=false` score (61) is strictly below the
`volume_sustained=true` score (69.4) by the parabolic penalty plus the
5.4-point sustained-volume follow-through contribution. -/
theorem compute_quality_score_parabolic :
    (∀ (rel_vol pct_change volume vol_thresh trade_count min_trades : ℚ)
        (spread_ratio : Option ℚ) (spread_limit price_expansion_pct : ℚ)
        (acceleration volume_sustained : Bool),
        ¬(11 ≤ pct_change ∧ volume_sustained = false) →
        compute_quality_score rel_vol pct_change volume vol_thresh trade_count min_trades
            spread_ratio spread_limit price_expansion_pct acceleration volume_sustained =
          compute_quality_score_noParabolic rel_vol pct_change volume vol_thresh trade_count
            min_trades spread_ratio spread_limit price_expansion_pct acceleration
            volume_sustained) ∧
    compute_quality_score 3 14 180000 90000 30 3 (some (1/1000)) (1/50) 0 false false = 61 ∧
    compute_quality_score 3 14 180000 90000 30 3 (some (1/1000)) (1/50) 0 false true = 347/5 ∧
    compute_quality_score 3 14 180000 90000 30 3 (some (1/1000)) (1/50) 0 false false <
      compute_quality_score 3 14 180000 90000 30 3 (some (1/1000)) (1/50) 0 false true ∧
    compute_quality_score 3 14 180000 90000 30 3 (some (1/1000)) (1/50) 0 false true
      - compute_quality_score 3 14 180000 90000 30 3 (some (1/1000)) (1/50) 0 false false
      = min ((14 : ℚ) - 11) 6 / 6 * 6 + 3/10 * 18 := by
  refine ⟨?_, ?_, ?_, ?_, ?_⟩
  · intro rel_vol pct_change volume vol_thresh trade_count min_trades spread_ratio
      spread_limit price_expansion_pct acceleration volume_sustained h
    simp only [compute_quality_score, compute_quality_score_noParabolic, if_neg h, sub_zero]
  all_goals norm_num [compute_quality_score, clampRound, pyRound1, roundHalfEven]

/-- Witness for the amended C5 statement at a concrete non-penalty input. -/
theorem compute_quality_score_parabolic_witness :
    ¬((11 : ℚ) ≤ 5 ∧ true = false) ∧
    compute_quality_score 2 5 1000 30000 10 3 none (3/100) 0 false true =
      compute_quality_score_noParabolic 2 5 1000 30000 10 3 none (3/100) 0 false true :=
  ⟨by norm_num,
    compute_quality_score_parabolic.1 2 5 1000 30000 10 3 none (3/100) 0 false true
      (by norm_num)⟩

/-- C8 counterexample: a locked quote (bid = ask = 5) yields a spread
ratio of 0, outside the claimed codomain `(0, 1]`; a wide quote
(bid = 1, ask = 4) yields 1.2, also outside `(0, 1]`. -/
theorem get_spread_ratio_range_cex :
    get_spread_ratio (some ⟨5, 5⟩) (some 10) none = some 0 ∧ ¬((0 : ℚ) < 0) ∧
    get_spread_ratio (some ⟨1, 4⟩) (some 10) none = some (6/5) ∧ ¬((6/5 : ℚ) ≤ 1) := by
  refine ⟨?_, by norm_num, ?_, by norm_num⟩ <;> norm_num [get_spread_ratio]

/-- C8 (amended): with a quote whose bid and ask are positive,
`get_spread_ratio` returns `(ask-bid)/((bid+ask)/2)`, a value in
`(-2, 2)` (not necessarily in `(0, 1]`); without such a quote it
returns the price tier 0.001 / 0.005 / 0.01 of the positive effective
price (passed fallback first, current bar close second), and `none`
when no positive price is available. -/
theorem get_spread_ratio_spec :
    (∀ (q : Quote) (fallback aggClose : Option ℚ), 0 < q.bid → 0 < q.ask →
        get_spread_ratio (some q) fallback aggClose =
          some ((q.ask - q.bid) / ((q.bid + q.ask) / 2)) ∧
        -2 < (q.ask - q.bid) / ((q.bid + q.ask) / 2) ∧
        (q.ask - q.bid) / ((q.bid + q.ask) / 2) < 2) ∧
    (∀ (q : Quote) (fallback aggClose : Option ℚ), ¬(0 < q.bid ∧ 0 < q.ask) →
        get_spread_ratio (some q) fallback aggClose =
          get_spread_fallback fallback aggClose) ∧
    (∀ fallback aggClose : Option ℚ,
        get_spread_ratio none fallback aggClose = get_spread_fallback fallback aggClose) ∧
    (∀ (fallback aggClose : Option ℚ) (p : ℚ),
        effectivePrice fallback aggClose = some p → 0 < p →
        get_spread_fallback fallback aggClose =
          some (if 5 ≤ p then 1/1000 else if 1 ≤ p then 5/1000 else 1/100)) ∧
    (∀ fallback aggClose : Option ℚ,
        (∀ p, effectivePrice fallback aggClose = some p → p ≤ 0) →
        get_spread_fallback fallback aggClose = none) := by
  refine ⟨?_, ?_, ?_, ?_, ?_⟩
  · intro q fallback aggClose hb ha
    have hmid : 0 < (q.bid + q.ask) / 2 := by linarith
    refine ⟨?_, ?_, ?_⟩
    · simp only [get_spread_ratio]
      rw [if_pos ⟨ne_of_gt hb, ne_of_gt ha, hb, ha, hmid⟩]
    · rw [lt_div_iff₀ hmid]; linarith
    · rw [div_lt_iff₀ hmid]; linarith
  · intro q fallback aggClose h
    simp only [get_spread_ratio]
    rw [if_neg]
    intro ⟨_, _, hb, ha, _⟩
    exact h ⟨hb, ha⟩
  · intro fallback aggClose; rfl
  · intro fallback aggClose p hp hpos
    simp only [get_spread_fallback, hp]
    rw [if_pos hpos]
    split_ifs <;> rfl
  · intro fallback aggClose h
    rcases he : effectivePrice fallback aggClose with _ | p
    · simp only [get_spread_fallback, he]
    · have hle := h p he
      simp only [get_spread_fallback, he]
      rw [if_neg (not_lt.mpr hle)]

/-- Witness for the amended C8 statement at a concrete quote. -/
theorem get_spread_ratio_spec_witness :
    (0 : ℚ) < 1 ∧ (0 : ℚ) < 2 ∧
    (get_spread_ratio (some ⟨1, 2⟩) none none = some ((2 - 1) / ((1 + 2) / 2)) ∧
      -2 < ((2 : ℚ) - 1) / ((1 + 2) / 2) ∧ ((2 : ℚ) - 1) / ((1 + 2) / 2) < 2) :=
  ⟨by norm_num, by norm_num, get_spread_ratio_spec.1 ⟨1, 2⟩ none none (by norm_num) (by norm_num)⟩

/-- `Option.bind` distributes over `if`. -/
theorem option_ite_bind {α β : Type} (c : Prop) [Decidable c] (a b : Option α)
    (f : α → Option β) : (if c then a else b).bind f = if c then a.bind f else b.bind f := by
  split_ifs <;> rfl

set_option maxHeartbeats 1000000 in
/-- Every division of the scorer succeeds: the checked scorer agrees with
the plain one on all inputs. -/
theorem compute_quality_score_checked_eq
    (rel_vol pct_change volume vol_thresh trade_count min_trades : ℚ)
    (spread_ratio : Option ℚ) (spread_limit price_expansion_pct : ℚ)
    (acceleration volume_sustained : Bool) :
    compute_quality_score_checked rel_vol pct_change volume vol_thresh trade_count min_trades
        spread_ratio spread_limit price_expansion_pct acceleration volume_sustained =
      some (compute_quality_score rel_vol pct_change volume vol_thresh trade_count min_trades
        spread_ratio spread_limit price_expansion_pct acceleration volume_sustained) := by
  have e8 : ∀ a : ℚ, safeDiv a 8 = some (a / 8) := fun a => if_neg (by norm_num)
  have e14 : ∀ a : ℚ, safeDiv a 14 = some (a / 14) := fun a => if_neg (by norm_num)
  have e2 : ∀ a : ℚ, safeDiv a 2 = some (a / 2) := fun a => if_neg (by norm_num)
  have e3 : ∀ a : ℚ, safeDiv a 3 = some (a / 3) := fun a => if_neg (by norm_num)
  have e6 : ∀ a : ℚ, safeDiv a 6 = some (a / 6) := fun a => if_neg (by norm_num)
  have hmt : max min_trades 1 ≠ 0 := by
    have h := le_max_right min_trades 1
    intro h0
    rw [h0] at h
    norm_num at h
  have emt : ∀ a : ℚ, safeDiv a (max min_trades 1) = some (a / max min_trades 1) :=
    fun a => if_neg hmt
  have ev : ∀ a : ℚ, 0 < vol_thresh → safeDiv a vol_thresh = some (a / vol_thresh) :=
    fun a h => if_neg (ne_of_gt h)
  have et : ∀ a : ℚ, 0 < trade_count → safeDiv a trade_count = some (a / trade_count) :=
    fun a h => if_neg (ne_of_gt h)
  have esl : ∀ a : ℚ, 0 < spread_limit → safeDiv a spread_limit = some (a / spread_limit) :=
    fun a h => if_neg (ne_of_gt h)
  unfold compute_quality_score_checked compute_quality_score
  rcases spread_ratio with _ | sr <;>
    by_cases h1 : 0 < vol_thresh <;>
    by_cases h4 : 0 < trade_count <;>
    by_cases h5 : 0 < spread_limit <;>
    by_cases hE : 3/5 ≤ price_expansion_pct <;>
    by_cases hP : (11 ≤ pct_change ∧ volume_sustained = false) <;>
    simp only [e8, e14, e2, e3, e6, emt, ev, et, esl, h1, h4, h5, hE, hP, option_ite_bind,
      Option.some_bind, Option.bind_eq_bind, Option.pure_def,
      ite_true, ite_false, add_zero, sub_zero, eq_self_iff_true, iff_true, iff_false,
      and_self, and_true, true_and, false_and, and_false]

/-- Every division of the aggregator succeeds: the checked
`update_aggregates` agrees with the plain one on all inputs. -/
theorem update_aggregates_checked_eq (aggs : Aggs) (symbol : String) (price size : ℚ)
    (minute_ts : ℤ) :
    update_aggregates_checked aggs symbol price size minute_ts =
      some (update_aggregates aggs symbol price size minute_ts) := by
  have eV : ∀ a b : ℚ, 0 < b → safeDiv a b = some (a / b) := fun a b h => if_neg (ne_of_gt h)
  simp only [update_aggregates_checked, update_aggregates, Agg.pctChange, Agg.vwapOr]
  generalize ((lookupA aggs (minute_ts, symbol)).getD Agg.init).update price size = A
  rcases ho : A.open_ with _ | o
  · by_cases hv : 0 < A.volume <;>
      simp only [ho, hv, eV, Option.some_bind, Option.bind_eq_bind, Option.pure_def,
        ite_true, ite_false]
  · by_cases hv : 0 < A.volume <;> by_cases hoo : 0 < o <;>
      simp only [ho, hv, hoo, eV, option_ite_bind, Option.some_bind, Option.bind_eq_bind,
        Option.pure_def, ite_true, ite_false]

/-- Every division of the quote-book spread computation succeeds. -/
theorem get_spread_ratio_checked_eq (quote : Option Quote) (fallback aggClose : Option ℚ) :
    get_spread_ratio_checked quote fallback aggClose =
      some (get_spread_ratio quote fallback aggClose) := by
  rcases quote with _ | q
  · rfl
  · unfold get_spread_ratio_checked get_spread_ratio
    by_cases hc : q.bid ≠ 0 ∧ q.ask ≠ 0 ∧ 0 < q.bid ∧ 0 < q.ask ∧ 0 < (q.bid + q.ask) / 2
    · have em : safeDiv (q.ask - q.bid) ((q.bid + q.ask) / 2) =
          some ((q.ask - q.bid) / ((q.bid + q.ask) / 2)) := if_neg (ne_of_gt hc.2.2.2.2)
      simp only [if_pos hc, em, Option.some_bind, Option.bind_eq_bind, Option.pure_def]
    · simp only [if_neg hc, Option.pure_def]

/-- Both divisions of the relative-volume computation succeed and give
the `rel_vol` used by `check_spike`. -/
theorem relVol_checked_eq (st : EngineState) (symbol : String) (vol_now : ℚ) :
    relVol_checked (volsOf st symbol) vol_now = some (relVolOf st symbol vol_now) := by
  set v := volsOf st symbol with hv
  have e1 : safeDiv (v.v0 + v.v1 + v.v2) (max (3 : ℚ) 1) =
      some ((v.v0 + v.v1 + v.v2) / max (3 : ℚ) 1) := if_neg (by norm_num)
  have h2 : max ((v.v0 + v.v1 + v.v2) / max (3 : ℚ) 1) 1 ≠ 0 := by
    have h := le_max_right ((v.v0 + v.v1 + v.v2) / max (3 : ℚ) 1) 1
    intro h0
    rw [h0] at h
    norm_num at h
  unfold relVol_checked relVolOf volPrev5Of
  rw [e1]
  simp only [Option.some_bind, Option.bind_eq_bind]
  unfold safeDiv
  rw [if_neg h2]
  norm_num

/-- C10: totality of the scoring and aggregation path — on every input
(including zero trade counts, volumes, thresholds, spread limits and
opens) `compute_quality_score`, `update_aggregates`, `get_spread_ratio`
and the `rel_vol` computation of `check_spike` reach no division by
zero: their fully division-checked variants succeed and agree with
them everywhere. -/
theorem no_division_by_zero :
    (∀ (rel_vol pct_change volume vol_thresh trade_count min_trades : ℚ)
        (spread_ratio : Option ℚ) (spread_limit price_expansion_pct : ℚ)
        (acceleration volume_sustained : Bool),
        compute_quality_score_checked rel_vol pct_change volume vol_thresh trade_count
            min_trades spread_ratio spread_limit price_expansion_pct acceleration
            volume_sustained =
          some (compute_quality_score rel_vol pct_change volume vol_thresh trade_count
            min_trades spread_ratio spread_limit price_expansion_pct acceleration
            volume_sustained)) ∧
    (∀ (aggs : Aggs) (symbol : String) (price size : ℚ) (minute_ts : ℤ),
        update_aggregates_checked aggs symbol price size minute_ts =
          some (update_aggregates aggs symbol price size minute_ts)) ∧
    (∀ (quote : Option Quote) (fallback aggClose : Option ℚ),
        get_spread_ratio_checked quote fallback aggClose =
          some (get_spread_ratio quote fallback aggClose)) ∧
    (∀ (st : EngineState) (symbol : String) (vol_now : ℚ),
        relVol_checked (volsOf st symbol) vol_now = some (relVolOf st symbol vol_now)) :=
  ⟨compute_quality_score_checked_eq, update_aggregates_checked_eq,
    get_spread_ratio_checked_eq, relVol_checked_eq⟩

/-- Lookup after insertion at the same key. -/
theorem lookupA_insertA_self {α β : Type} [DecidableEq α] (l : List (α × β)) (k : α) (v : β) :
    lookupA (insertA l k v) k = some v := by
  induction l with
  | nil => simp [insertA, lookupA]
  | cons e t ih =>
    obtain ⟨ek, ev⟩ := e
    by_cases h : ek = k
    · simp [insertA, lookupA, h]
    · simp only [insertA, if_neg h, lookupA]
      exact ih

/-- Lookup after insertion at a different key. -/
theorem lookupA_insertA_ne {α β : Type} [DecidableEq α] (l : List (α × β)) (k k' : α) (v : β)
    (h : k' ≠ k) : lookupA (insertA l k v) k' = lookupA l k' := by
  induction l with
  | nil => simp only [insertA, lookupA, if_neg (fun he : k = k' => h he.symm)]
  | cons e t ih =>
    obtain ⟨ek, ev⟩ := e
    by_cases he : ek = k
    · simp only [insertA, if_pos he, lookupA]
      rw [if_neg (fun hk : k = k' => h hk.symm), if_neg (he ▸ fun hk : k = k' => h hk.symm)]
    · simp only [insertA, if_neg he, lookupA]
      by_cases he' : ek = k'
      · rw [if_pos he', if_pos he']
      · rw [if_neg he', if_neg he']
        exact ih

/-- The fresh aggregate is well formed. -/
theorem AggWF_init : AggWF Agg.init := by
  simp [AggWF, Agg.init]

/-- One aggregator step with a nonnegative trade size preserves
well-formedness. -/
theorem AggWF_update (a : Agg) (price size : ℚ) (ha : AggWF a) (hs : 0 ≤ size) :
    AggWF (a.update price size) := by
  rcases a with ⟨o?, c, h?, l?, vol, val, cnt⟩
  cases o? <;> cases h? <;> cases l? <;> simp only [AggWF] at ha
  · obtain ⟨hc, hv, hval, hcnt⟩ := ha
    subst hc hv hval hcnt
    simp only [AggWF, Agg.update]
    refine ⟨le_refl _, le_refl _, le_refl _, le_refl _, by linarith, ?_, ?_, by omega⟩
    · exact le_of_eq (by ring)
    · exact le_of_eq (by ring)
  · rename_i o h l
    obtain ⟨h1, h2, h3, h4, h5, h6, h7, h8⟩ := ha
    simp only [AggWF, Agg.update]
    split_ifs with hh hl hl
    · exfalso; linarith
    · refine ⟨by linarith, by linarith, by linarith, le_refl _, by linarith, ?_, ?_, by omega⟩
      · nlinarith
      · nlinarith
    · refine ⟨by linarith, h2, le_refl _, by linarith, by linarith, ?_, ?_, by omega⟩
      · nlinarith
      · nlinarith
    · refine ⟨h1, h2, by linarith, by linarith, by linarith, ?_, ?_, by omega⟩
      · nlinarith
      · nlinarith

/-- Well-formedness implies the claimed bar invariant. -/
theorem AggWF.barInvariant (a : Agg) (ha : AggWF a) : BarInvariant a := by
  rcases a with ⟨o?, c, h?, l?, vol, val, cnt⟩
  cases o? <;> cases h? <;> cases l? <;> simp only [AggWF] at ha
  · obtain ⟨hc, hv, hval, hcnt⟩ := ha
    intro hvol
    exfalso
    simp only [hv] at hvol
    exact lt_irrefl _ hvol
  · rename_i o h l
    obtain ⟨h1, h2, h3, h4, h5, h6, h7, h8⟩ := ha
    intro hvol
    simp only at hvol
    unfold Agg.vwapOr
    simp only [Option.isSome_some, Option.getD_some, if_pos hvol]
    refine ⟨by simp, by simp, by simp, h1, h2, h3, h4, ?_, ?_, h8⟩
    · rw [le_div_iff₀ hvol]
      linarith
    · rw [div_le_iff₀ hvol]
      linarith

/-- One `update_aggregates` call with a nonnegative size preserves
map-level well-formedness. -/
theorem AggsWF_update (aggs : Aggs) (symbol : String) (price size : ℚ) (minute_ts : ℤ)
    (h : AggsWF aggs) (hs : 0 ≤ size) :
    AggsWF (update_aggregates aggs symbol price size minute_ts).1 := by
  intro k a hk
  unfold update_aggregates at hk
  simp only at hk
  by_cases hkey : k = (minute_ts, symbol)
  · subst hkey
    rw [lookupA_insertA_self] at hk
    cases hk
    apply AggWF_update _ _ _ _ hs
    rcases hl : lookupA aggs (minute_ts, symbol) with _ | b
    · simp [hl, AggWF_init]
    · simp only [hl, Option.getD_some]
      exact h _ _ hl
  · rw [lookupA_insertA_ne _ _ _ _ hkey] at hk
    exact h k a hk

/-- Replaying trades with nonnegative sizes preserves map-level
well-formedness. -/
theorem AggsWF_runTrades (trades : List Trade) (aggs : Aggs) (h : AggsWF aggs)
    (hs : ∀ t ∈ trades, 0 ≤ t.size) : AggsWF (runTrades aggs trades) := by
  induction trades generalizing aggs with
  | nil => exact h
  | cons t ts ih =>
    exact ih _ (AggsWF_update _ _ _ _ _ h (hs t (by simp))) (fun u hu => hs u (by simp [hu]))

/-- One `update_aggregates` call never overwrites an already-set open. -/
theorem open_preserved_update (aggs : Aggs) (symbol : String) (price size : ℚ)
    (minute_ts : ℤ) (k : ℤ × String) (o : ℚ)
    (h : ((lookupA aggs k).getD Agg.init).open_ = some o) :
    ((lookupA (update_aggregates aggs symbol price size minute_ts).1 k).getD Agg.init).open_ =
      some o := by
  unfold update_aggregates
  simp only
  by_cases hkey : k = (minute_ts, symbol)
  · subst hkey
    rw [lookupA_insertA_self]
    simp only [Option.getD_some, Agg.update]
    rw [h]
  · rw [lookupA_insertA_ne _ _ _ _ hkey]
    exact h

/-- Replaying any further trades never overwrites an already-set open. -/
theorem open_preserved_runTrades (trades : List Trade) (aggs : Aggs) (k : ℤ × String) (o : ℚ)
    (h : ((lookupA aggs k).getD Agg.init).open_ = some o) :
    ((lookupA (runTrades aggs trades) k).getD Agg.init).open_ = some o := by
  induction trades generalizing aggs with
  | nil => exact h
  | cons t ts ih => exact ih _ (open_preserved_update _ _ _ _ _ _ _ h)

/-- C4: after any sequence of `update_aggregates` calls with nonnegative
trade sizes starting from an empty map, every stored bar satisfies the
bar invariant (for positive volume: `low ≤ open, close ≤ high`,
`vwap ∈ [low, high]`, `trade_count ≥ 1`); and once a bar's open is set
it is never overwritten by later trades. -/
theorem update_aggregates_bar_invariant (trades : List Trade)
    (hs : ∀ t ∈ trades, 0 ≤ t.size) :
    (∀ (k : ℤ × String) (a : Agg), lookupA (runTrades [] trades) k = some a →
      BarInvariant a) ∧
    (∀ (aggs : Aggs) (more : List Trade) (k : ℤ × String) (o : ℚ),
      ((lookupA aggs k).getD Agg.init).open_ = some o →
      ((lookupA (runTrades aggs more) k).getD Agg.init).open_ = some o) := by
  constructor
  · intro k a hk
    exact AggWF.barInvariant a
      (AggsWF_runTrades trades [] (fun _ _ h => by cases h) hs k a hk)
  · intro aggs more k o h
    exact open_preserved_runTrades more aggs k o h

/-- `sessionOf` classifies minute-of-day 240–569 (04:00–09:29 ET) as
PREMARKET. -/
theorem sessionOf_premarket_iff (t : ℤ) :
    sessionOf t = Session.premarket ↔ 240 ≤ t % 1440 ∧ t % 1440 < 570 := by
  have h0 : 0 ≤ t % 1440 := Int.emod_nonneg t (by norm_num)
  have h1 : t % 1440 < 1440 := Int.emod_lt_of_pos t (by norm_num)
  have hm : t % 60 = t % 1440 % 60 := (Int.emod_emod_of_dvd t (by norm_num)).symm
  unfold sessionOf hourOf minuteOf
  rw [hm]
  constructor
  · intro h
    split_ifs at h with c1 c2 c3 <;> first | (exact absurd h (by decide)) | omega
  · intro hr
    split_ifs with c1 c2 c3 <;> first | rfl | omega

/-- `sessionOf` classifies minute-of-day 570–959 (09:30–15:59 ET) as
REGULAR. -/
theorem sessionOf_regular_iff (t : ℤ) :
    sessionOf t = Session.regular ↔ 570 ≤ t % 1440 ∧ t % 1440 < 960 := by
  have h0 : 0 ≤ t % 1440 := Int.emod_nonneg t (by norm_num)
  have h1 : t % 1440 < 1440 := Int.emod_lt_of_pos t (by norm_num)
  have hm : t % 60 = t % 1440 % 60 := (Int.emod_emod_of_dvd t (by norm_num)).symm
  unfold sessionOf hourOf minuteOf
  rw [hm]
  constructor
  · intro h
    split_ifs at h with c1 c2 c3 <;> first | (exact absurd h (by decide)) | omega
  · intro hr
    split_ifs with c1 c2 c3 <;> first | rfl | omega

/-- `sessionOf` classifies minute-of-day 960–1199 (16:00–19:59 ET) as
POSTMARKET. -/
theorem sessionOf_postmarket_iff (t : ℤ) :
    sessionOf t = Session.postmarket ↔ 960 ≤ t % 1440 ∧ t % 1440 < 1200 := by
  have h0 : 0 ≤ t % 1440 := Int.emod_nonneg t (by norm_num)
  have h1 : t % 1440 < 1440 := Int.emod_lt_of_pos t (by norm_num)
  have hm : t % 60 = t % 1440 % 60 := (Int.emod_emod_of_dvd t (by norm_num)).symm
  unfold sessionOf hourOf minuteOf
  rw [hm]
  constructor
  · intro h
    split_ifs at h with c1 c2 c3 <;> first | (exact absurd h (by decide)) | omega
  · intro hr
    split_ifs with c1 c2 c3 <;> first | rfl | omega

/-- `sessionOf` classifies every other minute of day as CLOSED. -/
theorem sessionOf_closed_iff (t : ℤ) :
    sessionOf t = Session.closed ↔ t % 1440 < 240 ∨ 1200 ≤ t % 1440 := by
  have h0 : 0 ≤ t % 1440 := Int.emod_nonneg t (by norm_num)
  have h1 : t % 1440 < 1440 := Int.emod_lt_of_pos t (by norm_num)
  have hm : t % 60 = t % 1440 % 60 := (Int.emod_emod_of_dvd t (by norm_num)).symm
  unfold sessionOf hourOf minuteOf
  rw [hm]
  constructor
  · intro h
    split_ifs at h with c1 c2 c3 <;> first | (exact absurd h (by decide)) | omega
  · intro hr
    split_ifs with c1 c2 c3 <;> first | rfl | omega

/-- C9: `check_spike` maps the bar's ET wall clock to PREMARKET for
04:00–09:29, REGULAR for 09:30–15:59, POSTMARKET for 16:00–19:59 and
CLOSED otherwise (expressed on the minute of day `t % 1440`), and a
CLOSED session short-circuits: the state is returned unchanged and no
alert is emitted. -/
theorem check_spike_session_classification :
    (∀ t : ℤ,
        (sessionOf t = Session.premarket ↔ 240 ≤ t % 1440 ∧ t % 1440 < 570) ∧
        (sessionOf t = Session.regular ↔ 570 ≤ t % 1440 ∧ t % 1440 < 960) ∧
        (sessionOf t = Session.postmarket ↔ 960 ≤ t % 1440 ∧ t % 1440 < 1200) ∧
        (sessionOf t = Session.closed ↔ t % 1440 < 240 ∨ 1200 ≤ t % 1440)) ∧
    (∀ (st : EngineState) (symbol : String) (current_pct current_vol : ℚ) (minute_ts : ℤ)
        (close_price : ℚ) (trade_count : ℕ) (now : ℤ),
        sessionOf minute_ts = Session.closed →
        check_spike st symbol current_pct current_vol minute_ts close_price trade_count now =
          (st, [])) := by
  constructor
  · intro t
    exact ⟨sessionOf_premarket_iff t, sessionOf_regular_iff t,
      sessionOf_postmarket_iff t, sessionOf_closed_iff t⟩
  · intro st symbol current_pct current_vol minute_ts close_price trade_count now h
    unfold check_spike
    rw [if_pos h]

/-- Witness for C9 at a concrete CLOSED timestamp (midnight). -/
theorem check_spike_session_classification_witness :
    sessionOf 0 = Session.closed ∧
    check_spike ⟨[], [], [], [], [], [], []⟩ "A" 0 0 0 0 0 0 =
      (⟨[], [], [], [], [], [], []⟩, []) :=
  ⟨by decide,
    check_spike_session_classification.2 ⟨[], [], [], [], [], [], []⟩ "A" 0 0 0 0 0 0
      (by decide)⟩

/-- Core vacuity argument: a candidate whose relative volume clears the
Watch bar (≥ 1.7) cannot be "declining" against any component of the
rolling window. -/
theorem declining_vacuous (s x vol_now wrv : ℚ) (hs : 0 ≤ s) (hx : 0 < x) (hxs : x ≤ s)
    (hw : 17/10 ≤ wrv) (hr : wrv ≤ vol_now / max (s/3) 1) (hd : vol_now < x * (2/5)) :
    False := by
  have hm : (1 : ℚ) ≤ max (s/3) 1 := le_max_right _ _
  rcases le_or_lt (s/3) 1 with hc | hc
  · rw [max_eq_right hc, div_one] at hr
    have hs3 : s ≤ 3 := by linarith
    linarith
  · rw [max_eq_left (le_of_lt hc)] at hr
    have h3 : 0 < s/3 := by linarith
    rw [le_div_iff₀ h3] at hr
    have hsc : 17/10 * (s/3) ≤ wrv * (s/3) := mul_le_mul_of_nonneg_right hw (by linarith)
    linarith

/-- The session Watch relative-volume bars are all at least 1.7. -/
theorem watchRelVol_ge (session : Session) (h : session ≠ Session.closed) :
    17/10 ≤ (paramsFor session).watchRelVol := by
  cases session <;> first | exact absurd rfl h | norm_num [paramsFor]

/-- `spreadOKmul` unpacked. -/
theorem spreadOKmul_iff (spread : Option ℚ) (limit mult : ℚ) :
    spreadOKmul spread limit mult = true ↔ ∀ s, spread = some s → s < limit * mult := by
  cases spread <;> simp [spreadOKmul]

/-- Under the Watch relative-volume bar and a nonnegative window, the
code's declining test is false and the spec's non-declining condition
holds. -/
theorem declining_agree (st : EngineState) (symbol : String) (vol_now wrv : ℚ)
    (h0 : 0 ≤ (volsOf st symbol).v0) (h1 : 0 ≤ (volsOf st symbol).v1)
    (h2 : 0 ≤ (volsOf st symbol).v2) (hw : 17/10 ≤ wrv)
    (hr : wrv ≤ relVolOf st symbol vol_now) :
    volDecliningB (volsOf st symbol) vol_now = false ∧
      specNotDeclining (volsOf st symbol) vol_now := by
  set v := volsOf st symbol with hv
  have hrel : wrv ≤ vol_now / max ((v.v0 + v.v1 + v.v2) / 3) 1 := by
    rw [hv]
    exact hr
  constructor
  · rw [volDecliningB, decide_eq_false_iff_not]
    rintro ⟨hp2, hp1, hd⟩
    exact declining_vacuous (v.v0 + v.v1 + v.v2) v.v1 vol_now wrv (by linarith) hp1
      (by linarith) hw hrel hd
  · intro hp2
    by_contra hd
    push_neg at hd
    exact declining_vacuous (v.v0 + v.v1 + v.v2) v.v2 vol_now wrv (by linarith) hp2
      (by linarith) hw hrel hd

/-- Lookup after erasure of the same key. -/
theorem lookupA_eraseA_self {α β : Type} [DecidableEq α] (l : List (α × β)) (k : α) :
    lookupA (eraseA l k) k = none := by
  induction l with
  | nil => rfl
  | cons e t ih =>
    by_cases h : e.1 = k
    · simpa [eraseA, h] using ih
    · simpa [eraseA, lookupA, h] using ih

/-- The Watch phase only touches the watch list and the alert tracker. -/
theorem watchPhase_state (st : EngineState) (p : Params) (session : Session) (symbol : String)
    (dt : ℤ) (price curPct rel_vol vol_now : ℚ) (trade_count : ℕ) (spread : Option ℚ)
    (vols : RollVol) :
    (watchPhase st p session symbol dt price curPct rel_vol vol_now trade_count spread
        vols).1.aggs = st.aggs ∧
    (watchPhase st p session symbol dt price curPct rel_vol vol_now trade_count spread
        vols).1.quotes = st.quotes ∧
    (watchPhase st p session symbol dt price curPct rel_vol vol_now trade_count spread
        vols).1.flags = st.flags ∧
    (watchPhase st p session symbol dt price curPct rel_vol vol_now trade_count spread
        vols).1.breakoutQuality = st.breakoutQuality ∧
    (watchPhase st p session symbol dt price curPct rel_vol vol_now trade_count spread
        vols).1.rolling = st.rolling := by
  unfold watchPhase
  dsimp only
  split_ifs <;> exact ⟨rfl, rfl, rfl, rfl, rfl⟩

/-- The Watch phase emits no Stage-2 and no Stage-3 alerts. -/
theorem watchPhase_alerts (st : EngineState) (p : Params) (session : Session) (symbol : String)
    (dt : ℤ) (price curPct rel_vol vol_now : ℚ) (trade_count : ℕ) (spread : Option ℚ)
    (vols : RollVol) :
    countBreakouts (watchPhase st p session symbol dt price curPct rel_vol vol_now trade_count
        spread vols).2 = 0 ∧
    countFastBreaks (watchPhase st p session symbol dt price curPct rel_vol vol_now trade_count
        spread vols).2 = 0 := by
  unfold watchPhase
  dsimp only
  split_ifs <;> exact ⟨rfl, rfl⟩

/-- A successful Stage-1 phase only touches the flag map. -/
theorem stage1Phase_state (st : EngineState) (p : Params) (session : Session) (symbol : String)
    (dt : ℤ) (price curPct rel_vol vol_now : ℚ) (trade_count : ℕ) (spread : Option ℚ)
    (vols : RollVol) (high : Option ℚ) (st' : EngineState)
    (h : stage1Phase st p session symbol dt price curPct rel_vol vol_now trade_count spread
        vols high = some st') :
    st'.aggs = st.aggs ∧ st'.quotes = st.quotes ∧ st'.watchAlerts = st.watchAlerts ∧
    st'.breakoutQuality = st.breakoutQuality ∧ st'.rolling = st.rolling ∧
    st'.tracker = st.tracker := by
  unfold stage1Phase at h
  dsimp only at h
  split_ifs at h
  all_goals
    first
      | exact Option.noConfusion h
      | (injection h with h; subst h; exact ⟨rfl, rfl, rfl, rfl, rfl, rfl⟩)

/-- The Stage-2 phase only touches the flag map and the confirmed-quality
record; in particular it never updates the alert tracker. -/
theorem stage2Phase_state (st : EngineState) (p : Params) (session : Session) (symbol : String)
    (minute_ts : ℤ) (price curPct vol_now rel_vol : ℚ) (trade_count : ℕ) (spread : Option ℚ)
    (vols : RollVol) :
    (stage2Phase st p session symbol minute_ts price curPct vol_now rel_vol trade_count spread
        vols).st.aggs = st.aggs ∧
    (stage2Phase st p session symbol minute_ts price curPct vol_now rel_vol trade_count spread
        vols).st.quotes = st.quotes ∧
    (stage2Phase st p session symbol minute_ts price curPct vol_now rel_vol trade_count spread
        vols).st.watchAlerts = st.watchAlerts ∧
    (stage2Phase st p session symbol minute_ts price curPct vol_now rel_vol trade_count spread
        vols).st.rolling = st.rolling ∧
    (stage2Phase st p session symbol minute_ts price curPct vol_now rel_vol trade_count spread
        vols).st.tracker = st.tracker := by
  unfold stage2Phase
  rcases h : lookupA st.flags symbol with _ | f <;> simp only [h] <;> try dsimp only
  all_goals first | (split_ifs <;> simp) | simp

/-- The Stage-2 phase emits no Fast-Break alerts. -/
theorem stage2Phase_alerts (st : EngineState) (p : Params) (session : Session) (symbol : String)
    (minute_ts : ℤ) (price curPct vol_now rel_vol : ℚ) (trade_count : ℕ) (spread : Option ℚ)
    (vols : RollVol) :
    countFastBreaks (stage2Phase st p session symbol minute_ts price curPct vol_now rel_vol
        trade_count spread vols).alerts = 0 := by
  unfold stage2Phase
  rcases h : lookupA st.flags symbol with _ | f <;> simp only [h] <;> try dsimp only
  all_goals
    first
      | (split_ifs <;> simp [countFastBreaks, isFastBreak])
      | rfl
      | simp [countFastBreaks, isFastBreak]

/-- The Stage-3 phase emits no Stage-2 confirmation alerts. -/
theorem stage3Phase_alerts (p : Params) (session : Session) (symbol : String)
    (curPct rel_vol vol_now : ℚ) (trade_count : ℕ) (spread : Option ℚ) (vol_prev5 : ℚ)
    (vols : RollVol) :
    countBreakouts (stage3Phase p session symbol curPct rel_vol vol_now trade_count spread
        vol_prev5 vols) = 0 := by
  unfold stage3Phase
  split_ifs <;> rfl

/-- Splitting alert counts over batches. -/
theorem countBreakouts_append (a b : List Alert) :
    countBreakouts (a ++ b) = countBreakouts a + countBreakouts b := by
  simp [countBreakouts, List.filter_append]

/-- Splitting Fast-Break counts over batches. -/
theorem countFastBreaks_append (a b : List Alert) :
    countFastBreaks (a ++ b) = countFastBreaks a + countFastBreaks b := by
  simp [countFastBreaks, List.filter_append]

/-- The final watch list of a non-CLOSED `check_spike` call is the one
the Watch phase produced (later stages never touch it). -/
theorem check_spike_watchAlerts (st : EngineState) (symbol : String) (curPct vol_now : ℚ)
    (minute_ts : ℤ) (price : ℚ) (trade_count : ℕ) (now : ℤ)
    (h : sessionOf minute_ts ≠ Session.closed) :
    (check_spike st symbol curPct vol_now minute_ts price trade_count now).1.watchAlerts =
      (watchPhase st (paramsFor (sessionOf minute_ts)) (sessionOf minute_ts) symbol minute_ts
        price curPct (relVolOf st symbol vol_now) vol_now trade_count
        (spreadOf st symbol price now) (volsOf st symbol)).1.watchAlerts := by
  unfold check_spike checkSpikeOpen checkSpikeStages
  rw [if_neg h]
  dsimp only
  rcases hst1 : stage1Phase
      (watchPhase st (paramsFor (sessionOf minute_ts)) (sessionOf minute_ts) symbol minute_ts
        price curPct (relVolOf st symbol vol_now) vol_now trade_count
        (spreadOf st symbol price now) (volsOf st symbol)).1
      (paramsFor (sessionOf minute_ts)) (sessionOf minute_ts) symbol minute_ts price curPct
      (relVolOf st symbol vol_now) vol_now trade_count (spreadOf st symbol price now)
      (volsOf st symbol) (highOf st.aggs minute_ts symbol price) with _ | st2
  · simp only [hst1]
  · simp only [hst1]
    have hpres2 := (stage2Phase_state st2 (paramsFor (sessionOf minute_ts))
      (sessionOf minute_ts) symbol minute_ts price curPct vol_now
      (relVolOf st symbol vol_now) trade_count (spreadOf st symbol price now)
      (volsOf st symbol)).2.2.1
    have hpres1 := (stage1Phase_state _ _ _ _ _ _ _ _ _ _ _ _ _ _ hst1).2.2.1
    split_ifs <;> dsimp only <;> rw [hpres2, hpres1]

/-- C6: the Stage-0 Watch candidate condition, unpacked per the spec. -/
theorem watch_stage_spec :
    ∀ (st : EngineState) (session : Session) (symbol : String) (dt now : ℤ)
      (price curPct vol_now : ℚ) (trade_count : ℕ) (p : Params) (spread : Option ℚ)
      (vols : RollVol) (rv q : ℚ),
      session ≠ Session.closed →
      p = paramsFor session →
      spread = spreadOf st symbol price now →
      vols = volsOf st symbol →
      rv = relVolOf st symbol vol_now →
      q = baseQualityOf p rv curPct vol_now trade_count spread →
      0 ≤ vols.v0 → 0 ≤ vols.v1 → 0 ≤ vols.v2 →
      (watchPassB p rv curPct trade_count spread vols vol_now = true ↔
        (p.watchRelVol ≤ rv ∧ p.watchPct ≤ curPct ∧ 2 ≤ trade_count ∧
          (∀ s, spread = some s → s < p.spreadLimit * (7/5)) ∧
          specNotDeclining vols vol_now)) ∧
      ((watchPhase st p session symbol dt price curPct rv vol_now trade_count spread
          vols).1.watchAlerts =
        st.watchAlerts ++
          (if watchPassB p rv curPct trade_count spread vols vol_now = true then
            [⟨symbol, dt, session, price, curPct, rv, vol_now, trade_count, q⟩] else [])) ∧
      ((watchPhase st p session symbol dt price curPct rv vol_now trade_count spread vols).2 =
        (if watchPassB p rv curPct trade_count spread vols vol_now = true ∧ 45 ≤ q ∧
            can_send_alert st.tracker symbol dt = true then
          [Alert.watch symbol session price curPct rv vol_now trade_count q] else [])) ∧
      (sessionOf dt = session →
        (check_spike st symbol curPct vol_now dt price trade_count now).1.watchAlerts =
          (watchPhase st p session symbol dt price curPct rv vol_now trade_count spread
            vols).1.watchAlerts) := by
  intro st session symbol dt now price curPct vol_now trade_count p spread vols rv q
    hsess hp hspread hvols hrv hq h0 h1 h2
  subst hp hspread hvols hrv hq
  refine ⟨?_, ?_, ?_, ?_⟩
  · have hge := watchRelVol_ge session hsess
    constructor
    · intro h
      simp only [watchPassB, Bool.and_eq_true, decide_eq_true_eq, Bool.not_eq_true'] at h
      obtain ⟨⟨⟨⟨ha, hb⟩, hc⟩, hd⟩, he⟩ := h
      refine ⟨ha, hb, hc, (spreadOKmul_iff _ _ _).mp hd, ?_⟩
      exact (declining_agree st symbol vol_now _ h0 h1 h2 hge ha).2
    · rintro ⟨ha, hb, hc, hd, he⟩
      have hdec := (declining_agree st symbol vol_now _ h0 h1 h2 hge ha).1
      simp only [watchPassB, Bool.and_eq_true, decide_eq_true_eq, Bool.not_eq_true']
      exact ⟨⟨⟨⟨ha, hb⟩, hc⟩, (spreadOKmul_iff _ _ _).mpr hd⟩, hdec⟩
  · unfold watchPhase
    dsimp only
    split_ifs with hw hs
    · rfl
    · rfl
    · simp
  · unfold watchPhase
    dsimp only
    by_cases hw : watchPassB (paramsFor session) (relVolOf st symbol vol_now) curPct
        trade_count (spreadOf st symbol price now) (volsOf st symbol) vol_now = true
    · rw [if_pos hw]
      by_cases hs : 45 ≤ baseQualityOf (paramsFor session) (relVolOf st symbol vol_now) curPct
          vol_now trade_count (spreadOf st symbol price now) ∧
          can_send_alert st.tracker symbol dt = true
      · rw [if_pos hs, if_pos ⟨hw, hs.1, hs.2⟩]
      · rw [if_neg hs, if_neg (fun hcon => hs ⟨hcon.2.1, hcon.2.2⟩)]
    · rw [if_neg hw, if_neg (fun hcon => hw hcon.1)]
  · intro hdt
    rw [← hdt]
    exact check_spike_watchAlerts st symbol curPct vol_now dt price trade_count now
      (hdt ▸ hsess)

theorem watch_stage_spec_witness :
    (watchPassB (paramsFor Session.premarket) (relVolOf watchState "W" 150000) 3 50
        (spreadOf watchState "W" 10 300) (volsOf watchState "W") 150000 = true ↔
      ((paramsFor Session.premarket).watchRelVol ≤ relVolOf watchState "W" 150000 ∧
        (paramsFor Session.premarket).watchPct ≤ 3 ∧ 2 ≤ 50 ∧
        (∀ s, spreadOf watchState "W" 10 300 = some s →
          s < (paramsFor Session.premarket).spreadLimit * (7/5)) ∧
        specNotDeclining (volsOf watchState "W") 150000)) :=
  (watch_stage_spec watchState Session.premarket "W" 300 300 10 3 150000 50
    (paramsFor Session.premarket) (spreadOf watchState "W" 10 300) (volsOf watchState "W")
    (relVolOf watchState "W" 150000)
    (baseQualityOf (paramsFor Session.premarket) (relVolOf watchState "W" 150000) 3 150000 50
      (spreadOf watchState "W" 10 300))
    (by decide) rfl rfl rfl rfl rfl
    (by norm_num [volsOf, lookupA, watchState])
    (by norm_num [volsOf, lookupA, watchState])
    (by norm_num [volsOf, lookupA, watchState])).1

/-- Full result of a `check_spike` call that reaches a Stage-2
confirmation passing the quality gate. -/
theorem check_spike_confirm_eq
    (st : EngineState) (symbol : String) (curPct vol_now : ℚ) (minute_ts : ℤ)
    (price : ℚ) (trade_count : ℕ) (now : ℤ) (p : Params) (spread : Option ℚ)
    (vols : RollVol) (rv : ℚ) (st1 : EngineState) (a1 : List Alert) (st2 : EngineState)
    (f : Flag)
    (hsess : sessionOf minute_ts ≠ Session.closed)
    (hp : p = paramsFor (sessionOf minute_ts))
    (hspread : spread = spreadOf st symbol price now)
    (hvols : vols = volsOf st symbol)
    (hrv : rv = relVolOf st symbol vol_now)
    (hw : watchPhase st p (sessionOf minute_ts) symbol minute_ts price curPct rv vol_now
      trade_count spread vols = (st1, a1))
    (h1 : stage1Phase st1 p (sessionOf minute_ts) symbol minute_ts price curPct rv vol_now
      trade_count spread vols (highOf st.aggs minute_ts symbol price) = some st2)
    (hf : lookupA st2.flags symbol = some f)
    (hname : f.flag = "SETUP_" ++ symbol)
    (hexp : stage2ExpiredB p (minsSinceFlag minute_ts f) (expansionPctOf price f) = false)
    (hpass : (stage2PassB p st2.aggs symbol f minute_ts price curPct vol_now rv spread ||
      altStage2PassB p st2.aggs symbol f minute_ts price curPct vol_now rv spread
        vols) = true)
    (hgate : (if stage2PassB p st2.aggs symbol f minute_ts price curPct vol_now rv spread
        then (60 : ℚ) else 58) ≤
      confirmedQualityOf p st2.aggs symbol f minute_ts price curPct vol_now rv
        trade_count spread) :
    check_spike st symbol curPct vol_now minute_ts price trade_count now =
      ({ st2 with
          breakoutQuality := insertA st2.breakoutQuality symbol
            ⟨confirmedQualityOf p st2.aggs symbol f minute_ts price curPct vol_now rv
              trade_count spread, minute_ts, expansionPctOf price f,
              cumulative_volume_since_flag st2.aggs symbol f.flagMinute minute_ts⟩,
          flags := eraseA st2.flags symbol },
        a1 ++
          [Alert.breakout symbol (sessionOf minute_ts)
            (altStage2PassB p st2.aggs symbol f minute_ts price curPct vol_now rv spread vols)
            (confirmedQualityOf p st2.aggs symbol f minute_ts price curPct vol_now rv
              trade_count spread)
            (expansionPctOf price f)
            (cumulative_volume_since_flag st2.aggs symbol f.flagMinute minute_ts)] ++
          stage3Phase p (sessionOf minute_ts) symbol curPct rv vol_now trade_count spread
            (volPrev5Of vols) vols) := by
  subst hp hspread hvols hrv
  unfold check_spike checkSpikeOpen checkSpikeStages
  rw [if_neg hsess]
  dsimp only
  rw [hw]
  dsimp only
  rw [h1]
  dsimp only
  have hs2 : stage2Phase st2 (paramsFor (sessionOf minute_ts)) (sessionOf minute_ts) symbol
      minute_ts price curPct vol_now (relVolOf st symbol vol_now) trade_count
      (spreadOf st symbol price now) (volsOf st symbol) =
      ⟨{ st2 with
          breakoutQuality := insertA st2.breakoutQuality symbol
            ⟨confirmedQualityOf (paramsFor (sessionOf minute_ts)) st2.aggs symbol f minute_ts
              price curPct vol_now (relVolOf st symbol vol_now) trade_count
              (spreadOf st symbol price now), minute_ts, expansionPctOf price f,
              cumulative_volume_since_flag st2.aggs symbol f.flagMinute minute_ts⟩,
          flags := eraseA st2.flags symbol },
        [Alert.breakout symbol (sessionOf minute_ts)
          (altStage2PassB (paramsFor (sessionOf minute_ts)) st2.aggs symbol f minute_ts price
            curPct vol_now (relVolOf st symbol vol_now) (spreadOf st symbol price now)
            (volsOf st symbol))
          (confirmedQualityOf (paramsFor (sessionOf minute_ts)) st2.aggs symbol f minute_ts
            price curPct vol_now (relVolOf st symbol vol_now) trade_count
            (spreadOf st symbol price now))
          (expansionPctOf price f)
          (cumulative_volume_since_flag st2.aggs symbol f.flagMinute minute_ts)], true⟩ := by
    unfold stage2Phase
    rw [hf]
    dsimp only
    rw [if_pos hname, if_neg (by rw [hexp]; exact Bool.false_ne_true), if_pos hpass,
      if_neg (not_lt.mpr hgate)]
  rw [hs2]
  dsimp only
  rw [if_pos rfl]

/-- C1 (amended): a Stage-2 confirmation that passes the quality gate
emits exactly one confirmation alert, removes the flag and records the
confirmed quality — but the cooldown is NOT marked: the tracker is
exactly what the Watch phase left. -/
theorem stage2_confirm_spec
    (st : EngineState) (symbol : String) (curPct vol_now : ℚ) (minute_ts : ℤ)
    (price : ℚ) (trade_count : ℕ) (now : ℤ) (p : Params) (spread : Option ℚ)
    (vols : RollVol) (rv : ℚ) (st1 : EngineState) (a1 : List Alert) (st2 : EngineState)
    (f : Flag)
    (hsess : sessionOf minute_ts ≠ Session.closed)
    (hp : p = paramsFor (sessionOf minute_ts))
    (hspread : spread = spreadOf st symbol price now)
    (hvols : vols = volsOf st symbol)
    (hrv : rv = relVolOf st symbol vol_now)
    (hw : watchPhase st p (sessionOf minute_ts) symbol minute_ts price curPct rv vol_now
      trade_count spread vols = (st1, a1))
    (h1 : stage1Phase st1 p (sessionOf minute_ts) symbol minute_ts price curPct rv vol_now
      trade_count spread vols (highOf st.aggs minute_ts symbol price) = some st2)
    (hf : lookupA st2.flags symbol = some f)
    (hname : f.flag = "SETUP_" ++ symbol)
    (hexp : stage2ExpiredB p (minsSinceFlag minute_ts f) (expansionPctOf price f) = false)
    (hpass : (stage2PassB p st2.aggs symbol f minute_ts price curPct vol_now rv spread ||
      altStage2PassB p st2.aggs symbol f minute_ts price curPct vol_now rv spread
        vols) = true)
    (hgate : (if stage2PassB p st2.aggs symbol f minute_ts price curPct vol_now rv spread
        then (60 : ℚ) else 58) ≤
      confirmedQualityOf p st2.aggs symbol f minute_ts price curPct vol_now rv
        trade_count spread) :
    countBreakouts (check_spike st symbol curPct vol_now minute_ts price trade_count
      now).2 = 1 ∧
    lookupA (check_spike st symbol curPct vol_now minute_ts price trade_count
      now).1.flags symbol = none ∧
    lookupA (check_spike st symbol curPct vol_now minute_ts price trade_count
        now).1.breakoutQuality symbol =
      some ⟨confirmedQualityOf p st2.aggs symbol f minute_ts price curPct vol_now rv
        trade_count spread, minute_ts, expansionPctOf price f,
        cumulative_volume_since_flag st2.aggs symbol f.flagMinute minute_ts⟩ ∧
    (check_spike st symbol curPct vol_now minute_ts price trade_count now).1.tracker =
      st1.tracker := by
  have heq := check_spike_confirm_eq st symbol curPct vol_now minute_ts price trade_count
    now p spread vols rv st1 a1 st2 f hsess hp hspread hvols hrv hw h1 hf hname hexp
    hpass hgate
  rw [heq]
  refine ⟨?_, ?_, ?_, ?_⟩
  · rw [countBreakouts_append, countBreakouts_append]
    have hwa := (watchPhase_alerts st p (sessionOf minute_ts) symbol minute_ts price curPct
      rv vol_now trade_count spread vols).1
    rw [hw] at hwa
    dsimp only at hwa
    rw [hwa, stage3Phase_alerts]
    rfl
  · exact lookupA_eraseA_self _ _
  · exact lookupA_insertA_self _ _ _
  · exact (stage1Phase_state _ _ _ _ _ _ _ _ _ _ _ _ _ _ h1).2.2.2.2.2

theorem c1_hw : watchPhase c1State (paramsFor (sessionOf 300)) (sessionOf 300) "AAA" 300
    (54/5) (100/53) (relVolOf c1State "AAA" 30000) 30000 120
    (spreadOf c1State "AAA" (54/5) 300) (volsOf c1State "AAA") = (c1State, []) := by
  norm_num [watchPhase, watchPassB, volDecliningB, spreadOKmul, sessionOf, hourOf, minuteOf,
    paramsFor, spreadOf, get_spread_ratio, get_spread_fallback, effectivePrice, lookupA,
    volsOf, volPrev5Of, relVolOf, c1State]

theorem c1_h1 : stage1Phase c1State (paramsFor (sessionOf 300)) (sessionOf 300) "AAA" 300
    (54/5) (100/53) (relVolOf c1State "AAA" 30000) 30000 120
    (spreadOf c1State "AAA" (54/5) 300) (volsOf c1State "AAA")
    (highOf c1State.aggs 300 "AAA" (54/5)) = some c1State := by
  norm_num [stage1Phase, stage1PassB, volDecliningB, spreadOKmul, sessionOf, hourOf,
    minuteOf, paramsFor, spreadOf, get_spread_ratio, get_spread_fallback, effectivePrice,
    lookupA, volsOf, volPrev5Of, relVolOf, c1State]

theorem c1_hpass :
    (stage2PassB (paramsFor (sessionOf 300)) c1State.aggs "AAA"
        ⟨"SETUP_AAA", 298, Session.premarket, some (53/5), 10, 20000, 298, 55⟩ 300 (54/5)
        (100/53) 30000 (relVolOf c1State "AAA" 30000) (spreadOf c1State "AAA" (54/5) 300) ||
      altStage2PassB (paramsFor (sessionOf 300)) c1State.aggs "AAA"
        ⟨"SETUP_AAA", 298, Session.premarket, some (53/5), 10, 20000, 298, 55⟩ 300 (54/5)
        (100/53) 30000 (relVolOf c1State "AAA" 30000) (spreadOf c1State "AAA" (54/5) 300)
        (volsOf c1State "AAA")) = true := by
  norm_num [stage2PassB, altStage2PassB, expansionGateB, volumeSustainedB, accelerationB,
    spreadGateB, tradeGateB, pyInt, minsSinceFlag, expansionPctOf,
    cumulative_volume_since_flag, total_trades_since_flag, sessionOf, hourOf, minuteOf,
    paramsFor, spreadOf, get_spread_ratio, get_spread_fallback, effectivePrice, lookupA,
    volsOf, volPrev5Of, relVolOf, c1State]

theorem c1_hgate :
    (if stage2PassB (paramsFor (sessionOf 300)) c1State.aggs "AAA"
        ⟨"SETUP_AAA", 298, Session.premarket, some (53/5), 10, 20000, 298, 55⟩ 300 (54/5)
        (100/53) 30000 (relVolOf c1State "AAA" 30000) (spreadOf c1State "AAA" (54/5) 300)
        then (60 : ℚ) else 58) ≤
      confirmedQualityOf (paramsFor (sessionOf 300)) c1State.aggs "AAA"
        ⟨"SETUP_AAA", 298, Session.premarket, some (53/5), 10, 20000, 298, 55⟩ 300 (54/5)
        (100/53) 30000 (relVolOf c1State "AAA" 30000) 120
        (spreadOf c1State "AAA" (54/5) 300) := by
  norm_num [stage2PassB, expansionGateB, volumeSustainedB, accelerationB, spreadGateB,
    tradeGateB, pyInt, minsSinceFlag, expansionPctOf, cumulative_volume_since_flag,
    total_trades_since_flag, confirmedQualityOf, compute_quality_score, clampRound,
    pyRound1, roundHalfEven, Int.fract, min_def, max_def, abs_of_nonneg, sessionOf,
    hourOf, minuteOf, paramsFor, spreadOf, get_spread_ratio, get_spread_fallback,
    effectivePrice, lookupA, volsOf, volPrev5Of, relVolOf, c1State]

theorem c1_stage3 : stage3Phase (paramsFor (sessionOf 300)) (sessionOf 300) "AAA" (100/53)
    (relVolOf c1State "AAA" 30000) 30000 120 (spreadOf c1State "AAA" (54/5) 300)
    (volPrev5Of (volsOf c1State "AAA")) (volsOf c1State "AAA") = [] := by
  norm_num [stage3Phase, fastBreakCondB, spreadOKmul, sessionOf, hourOf, minuteOf,
    paramsFor, spreadOf, get_spread_ratio, get_spread_fallback, effectivePrice, lookupA,
    volsOf, volPrev5Of, relVolOf, c1State]

theorem c1_hexp : stage2ExpiredB (paramsFor (sessionOf 300)) (minsSinceFlag 300
    ⟨"SETUP_AAA", 298, Session.premarket, some (53/5), 10, 20000, 298, 55⟩)
    (expansionPctOf (54/5)
      ⟨"SETUP_AAA", 298, Session.premarket, some (53/5), 10, 20000, 298, 55⟩) = false := by
  norm_num [stage2ExpiredB, requiredCumExpansion, minsSinceFlag, expansionPctOf, sessionOf,
    hourOf, minuteOf, paramsFor]

theorem c1_hf : lookupA c1State.flags "AAA" =
    some ⟨"SETUP_AAA", 298, Session.premarket, some (53/5), 10, 20000, 298, 55⟩ := by
  norm_num [lookupA, c1State]

/-- C1 counterexample: this concrete Stage-2 confirmation passes the gate
and emits the confirmation alert, yet the alert tracker stays empty —
the claimed cooldown marking does not happen. -/
theorem stage2_confirm_cex :
    countBreakouts (check_spike c1State "AAA" (100/53) 30000 300 (54/5) 120 300).2 = 1 ∧
    (check_spike c1State "AAA" (100/53) 30000 300 (54/5) 120 300).1.tracker = [] := by
  have heq := check_spike_confirm_eq c1State "AAA" (100/53) 30000 300 (54/5) 120 300
    (paramsFor (sessionOf 300)) (spreadOf c1State "AAA" (54/5) 300) (volsOf c1State "AAA")
    (relVolOf c1State "AAA" 30000) c1State [] c1State
    ⟨"SETUP_AAA", 298, Session.premarket, some (53/5), 10, 20000, 298, 55⟩
    (by decide) rfl rfl rfl rfl c1_hw c1_h1 c1_hf rfl c1_hexp c1_hpass c1_hgate
  rw [heq, c1_stage3]
  exact ⟨rfl, rfl⟩

/-- Witness for the amended C1 statement at the concrete scenario. -/
theorem stage2_confirm_spec_witness :
    sessionOf 300 ≠ Session.closed ∧
    (countBreakouts (check_spike c1State "AAA" (100/53) 30000 300 (54/5) 120 300).2 = 1 ∧
      lookupA (check_spike c1State "AAA" (100/53) 30000 300 (54/5) 120 300).1.flags
        "AAA" = none ∧
      lookupA (check_spike c1State "AAA" (100/53) 30000 300 (54/5) 120
          300).1.breakoutQuality "AAA" =
        some ⟨confirmedQualityOf (paramsFor (sessionOf 300)) c1State.aggs "AAA"
          ⟨"SETUP_AAA", 298, Session.premarket, some (53/5), 10, 20000, 298, 55⟩ 300 (54/5)
          (100/53) 30000 (relVolOf c1State "AAA" 30000) 120
          (spreadOf c1State "AAA" (54/5) 300), 300,
          expansionPctOf (54/5)
            ⟨"SETUP_AAA", 298, Session.premarket, some (53/5), 10, 20000, 298, 55⟩,
          cumulative_volume_since_flag c1State.aggs "AAA" 298 300⟩ ∧
      (check_spike c1State "AAA" (100/53) 30000 300 (54/5) 120 300).1.tracker =
        c1State.tracker) :=
  ⟨by decide,
    stage2_confirm_spec c1State "AAA" (100/53) 30000 300 (54/5) 120 300
      (paramsFor (sessionOf 300)) (spreadOf c1State "AAA" (54/5) 300) (volsOf c1State "AAA")
      (relVolOf c1State "AAA" 30000) c1State [] c1State
      ⟨"SETUP_AAA", 298, Session.premarket, some (53/5), 10, 20000, 298, 55⟩
      (by decide) rfl rfl rfl rfl c1_hw c1_h1 c1_hf rfl c1_hexp c1_hpass c1_hgate⟩

/-- Stage 3 emits exactly the Fast-Break alert when its trigger holds. -/
theorem stage3Phase_fires (p : Params) (session : Session) (symbol : String)
    (curPct rel_vol vol_now : ℚ) (trade_count : ℕ) (spread : Option ℚ) (vol_prev5 : ℚ)
    (vols : RollVol) (hfb : fastBreakCondB p vol_prev5 vol_now curPct spread = true) :
    stage3Phase p session symbol curPct rel_vol vol_now trade_count spread vol_prev5 vols =
      [Alert.fastBreak symbol session
        (compute_quality_score rel_vol curPct vol_now p.volThresh (trade_count : ℚ) 3 spread
          p.spreadLimit curPct true (!volDecliningB vols vol_now))
        curPct rel_vol vol_now] := by
  unfold stage3Phase
  rw [if_pos hfb]

/-- A Stage-2 phase on an unflagged symbol is a no-op that continues. -/
theorem stage2Phase_noflag (st : EngineState) (p : Params) (session : Session)
    (symbol : String) (minute_ts : ℤ) (price curPct vol_now rel_vol : ℚ) (trade_count : ℕ)
    (spread : Option ℚ) (vols : RollVol) (h : lookupA st.flags symbol = none) :
    stage2Phase st p session symbol minute_ts price curPct vol_now rel_vol trade_count
      spread vols = ⟨st, [], true⟩ := by
  unfold stage2Phase
  rw [h]

/-- C2 (amended): when control reaches Stage 3 — no Stage-1 quality
discard and no Stage-2 early return — and the Fast-Break trigger holds,
`check_spike` emits exactly one Fast-Break alert, without consulting the
cooldown and without updating the alert tracker (the tracker stays as
the Watch phase left it). -/
theorem fast_break_spec
    (st : EngineState) (symbol : String) (curPct vol_now : ℚ) (minute_ts : ℤ)
    (price : ℚ) (trade_count : ℕ) (now : ℤ) (p : Params) (spread : Option ℚ)
    (vols : RollVol) (rv : ℚ) (st1 : EngineState) (a1 : List Alert) (st2 : EngineState)
    (s2o : Stage2Out)
    (hsess : sessionOf minute_ts ≠ Session.closed)
    (hp : p = paramsFor (sessionOf minute_ts))
    (hspread : spread = spreadOf st symbol price now)
    (hvols : vols = volsOf st symbol)
    (hrv : rv = relVolOf st symbol vol_now)
    (hw : watchPhase st p (sessionOf minute_ts) symbol minute_ts price curPct rv vol_now
      trade_count spread vols = (st1, a1))
    (h1 : stage1Phase st1 p (sessionOf minute_ts) symbol minute_ts price curPct rv vol_now
      trade_count spread vols (highOf st.aggs minute_ts symbol price) = some st2)
    (hst2 : stage2Phase st2 p (sessionOf minute_ts) symbol minute_ts price curPct vol_now rv
      trade_count spread vols = s2o)
    (hcont : s2o.cont = true)
    (hfb : fastBreakCondB p (volPrev5Of vols) vol_now curPct spread = true) :
    countFastBreaks (check_spike st symbol curPct vol_now minute_ts price trade_count
      now).2 = 1 ∧
    (check_spike st symbol curPct vol_now minute_ts price trade_count now).1.tracker =
      st1.tracker := by
  subst hp hspread hvols hrv
  unfold check_spike checkSpikeOpen checkSpikeStages
  rw [if_neg hsess]
  dsimp only
  rw [hw]
  dsimp only
  rw [h1]
  dsimp only
  rw [hst2, if_pos hcont]
  constructor
  · rw [countFastBreaks_append, countFastBreaks_append]
    have hwa := (watchPhase_alerts st (paramsFor (sessionOf minute_ts))
      (sessionOf minute_ts) symbol minute_ts price curPct (relVolOf st symbol vol_now)
      vol_now trade_count (spreadOf st symbol price now) (volsOf st symbol)).2
    rw [hw] at hwa
    dsimp only at hwa
    have hs2a := stage2Phase_alerts st2 (paramsFor (sessionOf minute_ts))
      (sessionOf minute_ts) symbol minute_ts price curPct vol_now
      (relVolOf st symbol vol_now) trade_count (spreadOf st symbol price now)
      (volsOf st symbol)
    rw [hst2] at hs2a
    rw [hwa, hs2a, stage3Phase_fires _ _ _ _ _ _ _ _ _ _ hfb]
    rfl
  · have hs2s := (stage2Phase_state st2 (paramsFor (sessionOf minute_ts))
      (sessionOf minute_ts) symbol minute_ts price curPct vol_now
      (relVolOf st symbol vol_now) trade_count (spreadOf st symbol price now)
      (volsOf st symbol)).2.2.2.2
    rw [hst2] at hs2s
    rw [hs2s]
    exact (stage1Phase_state _ _ _ _ _ _ _ _ _ _ _ _ _ _ h1).2.2.2.2.2

theorem c2_hfb : fastBreakCondB (paramsFor (sessionOf 300))
    (volPrev5Of (volsOf c2State "BBB")) 6 9 (spreadOf c2State "BBB" 10 300) = true := by
  norm_num [fastBreakCondB, spreadOKmul, volPrev5Of, volsOf, spreadOf, get_spread_ratio,
    get_spread_fallback, effectivePrice, lookupA, sessionOf, hourOf, minuteOf, paramsFor,
    c2State]

theorem c2_hq : baseQualityOf (paramsFor (sessionOf 300)) (relVolOf c2State "BBB" 6) 9 6 3
    (spreadOf c2State "BBB" 10 300) < 45 := by
  norm_num [baseQualityOf, compute_quality_score, clampRound, pyRound1, roundHalfEven,
    Int.fract, min_def, max_def, abs_of_nonneg, sessionOf, hourOf, minuteOf, paramsFor,
    spreadOf, get_spread_ratio, get_spread_fallback, effectivePrice, lookupA, volsOf,
    volPrev5Of, relVolOf, c2State]

theorem c2_hw : watchPhase c2State (paramsFor (sessionOf 300)) (sessionOf 300) "BBB" 300
    10 9 (relVolOf c2State "BBB" 6) 6 3 (spreadOf c2State "BBB" 10 300)
    (volsOf c2State "BBB") = (c2State1, []) := by
  unfold watchPhase
  rw [if_pos (show watchPassB (paramsFor (sessionOf 300)) (relVolOf c2State "BBB" 6) 9 3
    (spreadOf c2State "BBB" 10 300) (volsOf c2State "BBB") 6 = true by
      norm_num [watchPassB, volDecliningB, spreadOKmul, sessionOf, hourOf, minuteOf,
        paramsFor, spreadOf, get_spread_ratio, get_spread_fallback, effectivePrice,
        lookupA, volsOf, volPrev5Of, relVolOf, c2State])]
  dsimp only
  rw [if_neg (fun h => absurd h.1 (not_le.mpr c2_hq))]
  rfl

theorem c2_h1 : stage1Phase c2State1 (paramsFor (sessionOf 300)) (sessionOf 300) "BBB" 300
    10 9 (relVolOf c2State "BBB" 6) 6 3 (spreadOf c2State "BBB" 10 300)
    (volsOf c2State "BBB") (highOf c2State.aggs 300 "BBB" 10) = none := by
  unfold stage1Phase
  rw [if_pos (show (stage1PassB (paramsFor (sessionOf 300)) (relVolOf c2State "BBB" 6) 9 3
      (spreadOf c2State "BBB" 10 300) (volsOf c2State "BBB") 6 &&
      (lookupA c2State1.flags "BBB").isNone) = true by
    norm_num [stage1PassB, volDecliningB, spreadOKmul, sessionOf, hourOf, minuteOf,
      paramsFor, spreadOf, get_spread_ratio, get_spread_fallback, effectivePrice,
      lookupA, volsOf, volPrev5Of, relVolOf, c2State1, c2State])]
  dsimp only
  rw [if_pos (lt_trans c2_hq (by norm_num))]

/-- C2 counterexample: in this concrete premarket bar the Fast-Break
trigger holds (`vol_prev5 = 1 > 0`, `volume = 6 ≥ 6·1`, `pct = 9`,
tight spread), yet `check_spike` emits no alert at all: the Stage-1
quality discard (`42.2 < 50`) returns before Stage 3 is ever reached,
so the Fast-Break path is not evaluated on every bar. -/
theorem fast_break_cex :
    fastBreakCondB (paramsFor (sessionOf 300)) (volPrev5Of (volsOf c2State "BBB")) 6 9
      (spreadOf c2State "BBB" 10 300) = true ∧
    (check_spike c2State "BBB" 9 6 300 10 3 300).2 = [] := by
  refine ⟨c2_hfb, ?_⟩
  unfold check_spike checkSpikeOpen checkSpikeStages
  rw [if_neg (by decide)]
  dsimp only
  rw [c2_hw]
  dsimp only
  rw [c2_h1]

theorem c2w_hq : baseQualityOf (paramsFor (sessionOf 300)) (relVolOf c2State "BBB" 6) 9 6 2
    (spreadOf c2State "BBB" 10 300) < 45 := by
  norm_num [baseQualityOf, compute_quality_score, clampRound, pyRound1, roundHalfEven,
    Int.fract, min_def, max_def, abs_of_nonneg, sessionOf, hourOf, minuteOf, paramsFor,
    spreadOf, get_spread_ratio, get_spread_fallback, effectivePrice, lookupA, volsOf,
    volPrev5Of, relVolOf, c2State]

theorem c2w_hw : watchPhase c2State (paramsFor (sessionOf 300)) (sessionOf 300) "BBB" 300
    10 9 (relVolOf c2State "BBB" 6) 6 2 (spreadOf c2State "BBB" 10 300)
    (volsOf c2State "BBB") = (c2StateW, []) := by
  unfold watchPhase
  rw [if_pos (show watchPassB (paramsFor (sessionOf 300)) (relVolOf c2State "BBB" 6) 9 2
    (spreadOf c2State "BBB" 10 300) (volsOf c2State "BBB") 6 = true by
      norm_num [watchPassB, volDecliningB, spreadOKmul, sessionOf, hourOf, minuteOf,
        paramsFor, spreadOf, get_spread_ratio, get_spread_fallback, effectivePrice,
        lookupA, volsOf, volPrev5Of, relVolOf, c2State])]
  dsimp only
  rw [if_neg (fun h => absurd h.1 (not_le.mpr c2w_hq))]
  rfl

theorem c2w_h1 : stage1Phase c2StateW (paramsFor (sessionOf 300)) (sessionOf 300) "BBB" 300
    10 9 (relVolOf c2State "BBB" 6) 6 2 (spreadOf c2State "BBB" 10 300)
    (volsOf c2State "BBB") (highOf c2State.aggs 300 "BBB" 10) = some c2StateW := by
  unfold stage1Phase
  rw [if_neg (show ¬((stage1PassB (paramsFor (sessionOf 300)) (relVolOf c2State "BBB" 6) 9 2
      (spreadOf c2State "BBB" 10 300) (volsOf c2State "BBB") 6 &&
      (lookupA c2StateW.flags "BBB").isNone) = true) by
    norm_num [stage1PassB, volDecliningB, spreadOKmul, sessionOf, hourOf, minuteOf,
      paramsFor, spreadOf, get_spread_ratio, get_spread_fallback, effectivePrice,
      lookupA, volsOf, volPrev5Of, relVolOf, c2StateW, c2State])]

theorem c2w_h2 : stage2Phase c2StateW (paramsFor (sessionOf 300)) (sessionOf 300) "BBB" 300
    10 9 6 (relVolOf c2State "BBB" 6) 2 (spreadOf c2State "BBB" 10 300)
    (volsOf c2State "BBB") = ⟨c2StateW, [], true⟩ :=
  stage2Phase_noflag _ _ _ _ _ _ _ _ _ _ _ _ rfl

/-- Witness for the amended C2 statement: with only 2 trades Stage 1
does not trigger its quality discard, control reaches Stage 3, and
exactly one Fast-Break alert is emitted with the tracker untouched. -/
theorem fast_break_spec_witness :
    countFastBreaks (check_spike c2State "BBB" 9 6 300 10 2 300).2 = 1 ∧
    (check_spike c2State "BBB" 9 6 300 10 2 300).1.tracker = c2StateW.tracker :=
  fast_break_spec c2State "BBB" 9 6 300 10 2 300 (paramsFor (sessionOf 300))
    (spreadOf c2State "BBB" 10 300) (volsOf c2State "BBB") (relVolOf c2State "BBB" 6)
    c2StateW [] c2StateW ⟨c2StateW, [], true⟩ (by decide) rfl rfl rfl rfl c2w_hw c2w_h1
    c2w_h2 rfl c2_hfb

/-- C3: the historical-stats detector (modelled from the spec; the
draft is absent from `src/`). A symbol whose liquidity score
`min(1, avg20/1e6)` is below 0.10 is silently skipped — the state is
unchanged and no alert of any kind is emitted — while at or above the
gate the staged pipeline runs with volume threshold
`max(vol_base, avg20 * m)`, `m` per session `{PREMARKET: 0.015,
REGULAR: 0.10, POSTMARKET: 0.02}`. -/
theorem historical_stats_spec (st : EngineState) (symbol : String)
    (curPct vol_now : ℚ) (minute_ts : ℤ) (price : ℚ) (trade_count : ℕ) (now : ℤ)
    (avg20 : ℚ) :
    (liquidityScore avg20 < 1/10 →
      check_spike_hist st symbol curPct vol_now minute_ts price trade_count now
        (some avg20) = (st, [])) ∧
    (sessionOf minute_ts ≠ Session.closed → 1/10 ≤ liquidityScore avg20 →
      check_spike_hist st symbol curPct vol_now minute_ts price trade_count now
        (some avg20) =
      checkSpikeStages st
        { paramsFor (sessionOf minute_ts) with
            volThresh := effectiveVolThreshold (paramsFor (sessionOf minute_ts)).volThresh
              avg20 (sessionVolMultiplier (sessionOf minute_ts)) }
        (sessionOf minute_ts) symbol curPct vol_now minute_ts price trade_count now) ∧
    (sessionVolMultiplier Session.premarket = 3/200 ∧
      sessionVolMultiplier Session.regular = 1/10 ∧
      sessionVolMultiplier Session.postmarket = 1/50) ∧
    (∀ base m, effectiveVolThreshold base avg20 m = max base (avg20 * m)) ∧
    liquidityScore avg20 = min 1 (avg20 / 1000000) := by
  refine ⟨?_, ?_, ⟨rfl, rfl, rfl⟩, fun base m => rfl, rfl⟩
  · intro h
    unfold check_spike_hist
    by_cases hs : sessionOf minute_ts = Session.closed
    · rw [if_pos hs]
    · rw [if_neg hs]
      dsimp only
      rw [if_pos h]
  · intro hs hl
    unfold check_spike_hist
    rw [if_neg hs]
    dsimp only
    rw [if_neg (not_lt.mpr hl)]

/-- Witness for C3 at the spec scenario: `avg_volume_20d = 50 000`
(liquidity 0.05) on an otherwise maximal premarket spike yields no
alerts and no state change. -/
theorem historical_stats_spec_witness :
    liquidityScore 50000 < 1/10 ∧
    check_spike_hist histState "H" 3 150000 300 10 50 300 (some 50000) =
      (histState, []) :=
  ⟨by norm_num [liquidityScore],
   (historical_stats_spec histState "H" 3 150000 300 10 50 300 50000).1
     (by norm_num [liquidityScore])⟩

/-- Witness for C4 on a concrete two-trade batch landing in one bar. -/
theorem update_aggregates_bar_invariant_witness :
    (∀ t ∈ sampleTrades, 0 ≤ t.size) ∧
    BarInvariant ⟨some 10, 11, some 11, some 10, 5, 50, 2⟩ :=
  ⟨by norm_num [sampleTrades],
   (update_aggregates_bar_invariant sampleTrades (by norm_num [sampleTrades])).1
     (60, "A") ⟨some 10, 11, some 11, some 10, 5, 50, 2⟩
     (by norm_num [sampleTrades, runTrades, update_aggregates, lookupA, insertA,
       Agg.update, Agg.init])⟩

end Stock
